import Mathlib

set_option maxRecDepth 100000
set_option maxHeartbeats 2000000

/-!
# Verification of `src/api/models.py`

A shallow embedding of the three SQLAlchemy models (`User`, `Event`,
`Signedup_events`) of the event-organizing application, together with proofs
of the specification's claims about them.

Modelling conventions:

* A declared column attribute of an instance is an `Option` value: `none` is
  Python `None` (an unset column on a fresh instance reads as `None`), `some v`
  a set value.
* The attribute `salt` assigned inside `set_password` is *not* a declared
  column; on an instance where `set_password` was never called, reading
  `self.salt` raises `AttributeError`.  It is therefore also an `Option`, but
  its `none` means "attribute missing" and reading it errors rather than
  yielding `None`.
* Methods that can raise are modelled as returning `Except PyError α` when
  they are pure reads, and `Option PyError × σ` when they mutate state: the
  second component is the state after the call (Python raises *before* the
  mutating assignment in every method of this file, so the state on error is
  the unchanged receiver).
* `hashlib.pbkdf2_hmac('sha256', ·, ·, ·)` and `os.urandom(32)` are external
  library collaborators, not code of this repository; they enter the model as
  parameters: a hash function `Pbkdf2` (bytes of the password, bytes of the
  salt, iteration count → derived bytes) and an explicit salt argument
  standing for the bytes `os.urandom(32)` returned.  Byte strings are
  `List Nat`.
* Python's `str.encode('utf-8')` is embedded as `utf8Encode` (the standard
  UTF-8 byte encoding of the string's code points).
-/

/-- Python exceptions raised by the methods of `models.py`:
`ValueError` (with its message) and `AttributeError` (with the attribute
name). -/
inductive PyError
  | valueError (msg : String)
  | attributeError (attr : String)
deriving DecidableEq, Repr

/-- A Python value as stored in a model field or returned by `serialize()`:
`none` is Python `None`; the other constructors carry the payloads that occur
in `models.py` (integers, strings, booleans, `bytes`, and the `datetime`
object stored by `set_date`, kept as its (day, month, year) triple). -/
inductive PyVal
  | none
  | int (i : Int)
  | str (s : String)
  | bool (b : Bool)
  | bytes (bs : List Nat)
  | datetime (day month year : Nat)
deriving DecidableEq, Repr

/-- Lift an optional integer column value to a `PyVal`. -/
def optInt : Option Int → PyVal
  | Option.none => PyVal.none
  | some i => PyVal.int i

/-- Lift an optional string column value to a `PyVal`. -/
def optStr : Option String → PyVal
  | Option.none => PyVal.none
  | some s => PyVal.str s

/-- Lift an optional boolean column value to a `PyVal`. -/
def optBool : Option Bool → PyVal
  | Option.none => PyVal.none
  | some b => PyVal.bool b

/-- Lift an optional stored Python value (the `date` column, which `set_date`
fills with a `datetime` object) to a `PyVal`. -/
def optVal : Option PyVal → PyVal
  | Option.none => PyVal.none
  | some v => v

/-- UTF-8 encoding of a single Unicode code point, as a list of byte values. -/
def utf8EncodeChar (n : Nat) : List Nat :=
  if n < 0x80 then [n]
  else if n < 0x800 then [0xC0 + n / 64, 0x80 + n % 64]
  else if n < 0x10000 then [0xE0 + n / 4096, 0x80 + n / 64 % 64, 0x80 + n % 64]
  else [0xF0 + n / 262144, 0x80 + n / 4096 % 64, 0x80 + n / 64 % 64, 0x80 + n % 64]

/-- Python's `s.encode('utf-8')`: the UTF-8 bytes of the string. -/
def utf8Encode (s : String) : List Nat :=
  (s.data.map (fun c => utf8EncodeChar c.toNat)).flatten

/-- The type of the external `hashlib.pbkdf2_hmac('sha256', password, salt,
iterations)` collaborator: password bytes → salt bytes → iteration count →
derived key bytes.  The model is parametric in it; `models.py` only ever
calls it and compares its outputs for equality. -/
abbrev Pbkdf2 := List Nat → List Nat → Nat → List Nat

/-- The `User` model.  Declared columns (`id` … `users_following_me`) read as
`None` when unset; `salt` is an undeclared instance attribute created only by
`set_password` (its `none` means the attribute is missing).  The `password`
column is declared `String(60)` but `set_password` assigns the raw `bytes`
digest to it, so it is kept as an optional `PyVal`. -/
structure User where
  id : Option Int
  username : Option String
  password : Option PyVal
  email : Option String
  first_name : Option String
  last_name : Option String
  followed_users : Option Int
  users_following_me : Option Int
  salt : Option (List Nat)
deriving DecidableEq, Repr

namespace User

/-- A freshly constructed `User()` before any column assignment: every column
reads `None`, and the non-column attribute `salt` does not exist. -/
def new : User :=
  { id := Option.none, username := Option.none, password := Option.none,
    email := Option.none, first_name := Option.none, last_name := Option.none,
    followed_users := Option.none, users_following_me := Option.none,
    salt := Option.none }

end User

/-!
## The email regex

`User.validate_email` is `re.match(r'^[\w\.-]+@[\w\.-]+\.\w+$', email) is not
None`.  The regex is compiled here by hand into a deterministic scanner:

* `\w` is the word-character class.  Python 3's `re` interprets `\w` over all
  of Unicode by default (alphanumerics plus underscore); `wordRanges` below is
  the exact set of code points matched by CPython's `\w` (enumerated from
  CPython 3.11 / Unicode 14.0, as closed code-point ranges).
* `[\w\.-]` additionally allows `.` and `-`.
* `re.match` anchors at the start of the string; the trailing `$` (no
  `re.MULTILINE`) matches at the end of the string *or just before a single
  newline that ends the string*, so `"a@b.c\n"` matches in Python and in this
  model.
* Because `@` belongs to no character class of the pattern, a match splits the
  string at its unique `@`; because `\w` excludes `.`, the `\.\w+$` tail
  starts at the *last* `.` after the `@`.  The scanner below uses exactly
  these two splits, which is equivalent to the backtracking regex on the full
  anchored pattern (proved in `matchEmailAnchored_iff_core` below).
-/

/-- The closed code-point ranges of CPython's regex class `\w` (Unicode word
characters: alphanumerics and underscore), enumerated from CPython's `re`
(Unicode 14.0). -/
def wordRanges : List (Nat × Nat) := [
   (48, 57), (65, 90), (95, 95), (97, 122), (170, 170), (178, 179),
   (181, 181), (185, 186), (188, 190), (192, 214), (216, 246), (248, 705),
   (710, 721), (736, 740), (748, 748), (750, 750), (880, 884), (886, 887),
   (890, 893), (895, 895), (902, 902), (904, 906), (908, 908), (910, 929),
   (931, 1013), (1015, 1153), (1162, 1327), (1329, 1366), (1369, 1369), (1376, 1416),
   (1488, 1514), (1519, 1522), (1568, 1610), (1632, 1641), (1646, 1647), (1649, 1747),
   (1749, 1749), (1765, 1766), (1774, 1788), (1791, 1791), (1808, 1808), (1810, 1839),
   (1869, 1957), (1969, 1969), (1984, 2026), (2036, 2037), (2042, 2042), (2048, 2069),
   (2074, 2074), (2084, 2084), (2088, 2088), (2112, 2136), (2144, 2154), (2160, 2183),
   (2185, 2190), (2208, 2249), (2308, 2361), (2365, 2365), (2384, 2384), (2392, 2401),
   (2406, 2415), (2417, 2432), (2437, 2444), (2447, 2448), (2451, 2472), (2474, 2480),
   (2482, 2482), (2486, 2489), (2493, 2493), (2510, 2510), (2524, 2525), (2527, 2529),
   (2534, 2545), (2548, 2553), (2556, 2556), (2565, 2570), (2575, 2576), (2579, 2600),
   (2602, 2608), (2610, 2611), (2613, 2614), (2616, 2617), (2649, 2652), (2654, 2654),
   (2662, 2671), (2674, 2676), (2693, 2701), (2703, 2705), (2707, 2728), (2730, 2736),
   (2738, 2739), (2741, 2745), (2749, 2749), (2768, 2768), (2784, 2785), (2790, 2799),
   (2809, 2809), (2821, 2828), (2831, 2832), (2835, 2856), (2858, 2864), (2866, 2867),
   (2869, 2873), (2877, 2877), (2908, 2909), (2911, 2913), (2918, 2927), (2929, 2935),
   (2947, 2947), (2949, 2954), (2958, 2960), (2962, 2965), (2969, 2970), (2972, 2972),
   (2974, 2975), (2979, 2980), (2984, 2986), (2990, 3001), (3024, 3024), (3046, 3058),
   (3077, 3084), (3086, 3088), (3090, 3112), (3114, 3129), (3133, 3133), (3160, 3162),
   (3165, 3165), (3168, 3169), (3174, 3183), (3192, 3198), (3200, 3200), (3205, 3212),
   (3214, 3216), (3218, 3240), (3242, 3251), (3253, 3257), (3261, 3261), (3293, 3294),
   (3296, 3297), (3302, 3311), (3313, 3314), (3332, 3340), (3342, 3344), (3346, 3386),
   (3389, 3389), (3406, 3406), (3412, 3414), (3416, 3425), (3430, 3448), (3450, 3455),
   (3461, 3478), (3482, 3505), (3507, 3515), (3517, 3517), (3520, 3526), (3558, 3567),
   (3585, 3632), (3634, 3635), (3648, 3654), (3664, 3673), (3713, 3714), (3716, 3716),
   (3718, 3722), (3724, 3747), (3749, 3749), (3751, 3760), (3762, 3763), (3773, 3773),
   (3776, 3780), (3782, 3782), (3792, 3801), (3804, 3807), (3840, 3840), (3872, 3891),
   (3904, 3911), (3913, 3948), (3976, 3980), (4096, 4138), (4159, 4169), (4176, 4181),
   (4186, 4189), (4193, 4193), (4197, 4198), (4206, 4208), (4213, 4225), (4238, 4238),
   (4240, 4249), (4256, 4293), (4295, 4295), (4301, 4301), (4304, 4346), (4348, 4680),
   (4682, 4685), (4688, 4694), (4696, 4696), (4698, 4701), (4704, 4744), (4746, 4749),
   (4752, 4784), (4786, 4789), (4792, 4798), (4800, 4800), (4802, 4805), (4808, 4822),
   (4824, 4880), (4882, 4885), (4888, 4954), (4969, 4988), (4992, 5007), (5024, 5109),
   (5112, 5117), (5121, 5740), (5743, 5759), (5761, 5786), (5792, 5866), (5870, 5880),
   (5888, 5905), (5919, 5937), (5952, 5969), (5984, 5996), (5998, 6000), (6016, 6067),
   (6103, 6103), (6108, 6108), (6112, 6121), (6128, 6137), (6160, 6169), (6176, 6264),
   (6272, 6276), (6279, 6312), (6314, 6314), (6320, 6389), (6400, 6430), (6470, 6509),
   (6512, 6516), (6528, 6571), (6576, 6601), (6608, 6618), (6656, 6678), (6688, 6740),
   (6784, 6793), (6800, 6809), (6823, 6823), (6917, 6963), (6981, 6988), (6992, 7001),
   (7043, 7072), (7086, 7141), (7168, 7203), (7232, 7241), (7245, 7293), (7296, 7304),
   (7312, 7354), (7357, 7359), (7401, 7404), (7406, 7411), (7413, 7414), (7418, 7418),
   (7424, 7615), (7680, 7957), (7960, 7965), (7968, 8005), (8008, 8013), (8016, 8023),
   (8025, 8025), (8027, 8027), (8029, 8029), (8031, 8061), (8064, 8116), (8118, 8124),
   (8126, 8126), (8130, 8132), (8134, 8140), (8144, 8147), (8150, 8155), (8160, 8172),
   (8178, 8180), (8182, 8188), (8304, 8305), (8308, 8313), (8319, 8329), (8336, 8348),
   (8450, 8450), (8455, 8455), (8458, 8467), (8469, 8469), (8473, 8477), (8484, 8484),
   (8486, 8486), (8488, 8488), (8490, 8493), (8495, 8505), (8508, 8511), (8517, 8521),
   (8526, 8526), (8528, 8585), (9312, 9371), (9450, 9471), (10102, 10131), (11264, 11492),
   (11499, 11502), (11506, 11507), (11517, 11517), (11520, 11557), (11559, 11559), (11565, 11565),
   (11568, 11623), (11631, 11631), (11648, 11670), (11680, 11686), (11688, 11694), (11696, 11702),
   (11704, 11710), (11712, 11718), (11720, 11726), (11728, 11734), (11736, 11742), (11823, 11823),
   (12293, 12295), (12321, 12329), (12337, 12341), (12344, 12348), (12353, 12438), (12445, 12447),
   (12449, 12538), (12540, 12543), (12549, 12591), (12593, 12686), (12690, 12693), (12704, 12735),
   (12784, 12799), (12832, 12841), (12872, 12879), (12881, 12895), (12928, 12937), (12977, 12991),
   (13312, 19903), (19968, 42124), (42192, 42237), (42240, 42508), (42512, 42539), (42560, 42606),
   (42623, 42653), (42656, 42735), (42775, 42783), (42786, 42888), (42891, 42954), (42960, 42961),
   (42963, 42963), (42965, 42969), (42994, 43009), (43011, 43013), (43015, 43018), (43020, 43042),
   (43056, 43061), (43072, 43123), (43138, 43187), (43216, 43225), (43250, 43255), (43259, 43259),
   (43261, 43262), (43264, 43301), (43312, 43334), (43360, 43388), (43396, 43442), (43471, 43481),
   (43488, 43492), (43494, 43518), (43520, 43560), (43584, 43586), (43588, 43595), (43600, 43609),
   (43616, 43638), (43642, 43642), (43646, 43695), (43697, 43697), (43701, 43702), (43705, 43709),
   (43712, 43712), (43714, 43714), (43739, 43741), (43744, 43754), (43762, 43764), (43777, 43782),
   (43785, 43790), (43793, 43798), (43808, 43814), (43816, 43822), (43824, 43866), (43868, 43881),
   (43888, 44002), (44016, 44025), (44032, 55203), (55216, 55238), (55243, 55291), (63744, 64109),
   (64112, 64217), (64256, 64262), (64275, 64279), (64285, 64285), (64287, 64296), (64298, 64310),
   (64312, 64316), (64318, 64318), (64320, 64321), (64323, 64324), (64326, 64433), (64467, 64829),
   (64848, 64911), (64914, 64967), (65008, 65019), (65136, 65140), (65142, 65276), (65296, 65305),
   (65313, 65338), (65345, 65370), (65382, 65470), (65474, 65479), (65482, 65487), (65490, 65495),
   (65498, 65500), (65536, 65547), (65549, 65574), (65576, 65594), (65596, 65597), (65599, 65613),
   (65616, 65629), (65664, 65786), (65799, 65843), (65856, 65912), (65930, 65931), (66176, 66204),
   (66208, 66256), (66273, 66299), (66304, 66339), (66349, 66378), (66384, 66421), (66432, 66461),
   (66464, 66499), (66504, 66511), (66513, 66517), (66560, 66717), (66720, 66729), (66736, 66771),
   (66776, 66811), (66816, 66855), (66864, 66915), (66928, 66938), (66940, 66954), (66956, 66962),
   (66964, 66965), (66967, 66977), (66979, 66993), (66995, 67001), (67003, 67004), (67072, 67382),
   (67392, 67413), (67424, 67431), (67456, 67461), (67463, 67504), (67506, 67514), (67584, 67589),
   (67592, 67592), (67594, 67637), (67639, 67640), (67644, 67644), (67647, 67669), (67672, 67702),
   (67705, 67742), (67751, 67759), (67808, 67826), (67828, 67829), (67835, 67867), (67872, 67897),
   (67968, 68023), (68028, 68047), (68050, 68096), (68112, 68115), (68117, 68119), (68121, 68149),
   (68160, 68168), (68192, 68222), (68224, 68255), (68288, 68295), (68297, 68324), (68331, 68335),
   (68352, 68405), (68416, 68437), (68440, 68466), (68472, 68497), (68521, 68527), (68608, 68680),
   (68736, 68786), (68800, 68850), (68858, 68899), (68912, 68921), (69216, 69246), (69248, 69289),
   (69296, 69297), (69376, 69415), (69424, 69445), (69457, 69460), (69488, 69505), (69552, 69579),
   (69600, 69622), (69635, 69687), (69714, 69743), (69745, 69746), (69749, 69749), (69763, 69807),
   (69840, 69864), (69872, 69881), (69891, 69926), (69942, 69951), (69956, 69956), (69959, 69959),
   (69968, 70002), (70006, 70006), (70019, 70066), (70081, 70084), (70096, 70106), (70108, 70108),
   (70113, 70132), (70144, 70161), (70163, 70187), (70272, 70278), (70280, 70280), (70282, 70285),
   (70287, 70301), (70303, 70312), (70320, 70366), (70384, 70393), (70405, 70412), (70415, 70416),
   (70419, 70440), (70442, 70448), (70450, 70451), (70453, 70457), (70461, 70461), (70480, 70480),
   (70493, 70497), (70656, 70708), (70727, 70730), (70736, 70745), (70751, 70753), (70784, 70831),
   (70852, 70853), (70855, 70855), (70864, 70873), (71040, 71086), (71128, 71131), (71168, 71215),
   (71236, 71236), (71248, 71257), (71296, 71338), (71352, 71352), (71360, 71369), (71424, 71450),
   (71472, 71483), (71488, 71494), (71680, 71723), (71840, 71922), (71935, 71942), (71945, 71945),
   (71948, 71955), (71957, 71958), (71960, 71983), (71999, 71999), (72001, 72001), (72016, 72025),
   (72096, 72103), (72106, 72144), (72161, 72161), (72163, 72163), (72192, 72192), (72203, 72242),
   (72250, 72250), (72272, 72272), (72284, 72329), (72349, 72349), (72368, 72440), (72704, 72712),
   (72714, 72750), (72768, 72768), (72784, 72812), (72818, 72847), (72960, 72966), (72968, 72969),
   (72971, 73008), (73030, 73030), (73040, 73049), (73056, 73061), (73063, 73064), (73066, 73097),
   (73112, 73112), (73120, 73129), (73440, 73458), (73648, 73648), (73664, 73684), (73728, 74649),
   (74752, 74862), (74880, 75075), (77712, 77808), (77824, 78894), (82944, 83526), (92160, 92728),
   (92736, 92766), (92768, 92777), (92784, 92862), (92864, 92873), (92880, 92909), (92928, 92975),
   (92992, 92995), (93008, 93017), (93019, 93025), (93027, 93047), (93053, 93071), (93760, 93846),
   (93952, 94026), (94032, 94032), (94099, 94111), (94176, 94177), (94179, 94179), (94208, 100343),
   (100352, 101589), (101632, 101640), (110576, 110579), (110581, 110587), (110589, 110590), (110592, 110882),
   (110928, 110930), (110948, 110951), (110960, 111355), (113664, 113770), (113776, 113788), (113792, 113800),
   (113808, 113817), (119520, 119539), (119648, 119672), (119808, 119892), (119894, 119964), (119966, 119967),
   (119970, 119970), (119973, 119974), (119977, 119980), (119982, 119993), (119995, 119995), (119997, 120003),
   (120005, 120069), (120071, 120074), (120077, 120084), (120086, 120092), (120094, 120121), (120123, 120126),
   (120128, 120132), (120134, 120134), (120138, 120144), (120146, 120485), (120488, 120512), (120514, 120538),
   (120540, 120570), (120572, 120596), (120598, 120628), (120630, 120654), (120656, 120686), (120688, 120712),
   (120714, 120744), (120746, 120770), (120772, 120779), (120782, 120831), (122624, 122654), (123136, 123180),
   (123191, 123197), (123200, 123209), (123214, 123214), (123536, 123565), (123584, 123627), (123632, 123641),
   (124896, 124902), (124904, 124907), (124909, 124910), (124912, 124926), (124928, 125124), (125127, 125135),
   (125184, 125251), (125259, 125259), (125264, 125273), (126065, 126123), (126125, 126127), (126129, 126132),
   (126209, 126253), (126255, 126269), (126464, 126467), (126469, 126495), (126497, 126498), (126500, 126500),
   (126503, 126503), (126505, 126514), (126516, 126519), (126521, 126521), (126523, 126523), (126530, 126530),
   (126535, 126535), (126537, 126537), (126539, 126539), (126541, 126543), (126545, 126546), (126548, 126548),
   (126551, 126551), (126553, 126553), (126555, 126555), (126557, 126557), (126559, 126559), (126561, 126562),
   (126564, 126564), (126567, 126570), (126572, 126578), (126580, 126583), (126585, 126588), (126590, 126590),
   (126592, 126601), (126603, 126619), (126625, 126627), (126629, 126633), (126635, 126651), (127232, 127244),
   (130032, 130041), (131072, 173791), (173824, 177976), (177984, 178205), (178208, 183969), (183984, 191456),
   (194560, 195101), (196608, 201546)
  ]

/-- The regex class `\w` as CPython's `re` matches it: membership in one of
the enumerated Unicode word-character ranges. -/
def isWordChar (c : Char) : Bool :=
  wordRanges.any (fun r => decide (r.1 ≤ c.toNat) && decide (c.toNat ≤ r.2))

/-- The regex class `[\w\.-]` used for the local and domain parts. -/
def isLocalChar (c : Char) : Bool :=
  isWordChar c || c == '.' || c == '-'

/-- Split a character list at the first occurrence of `c`: returns the part
before and the part after that occurrence, or `none` when `c` does not
occur. -/
def splitAtFirst (c : Char) : List Char → Option (List Char × List Char)
  | [] => Option.none
  | x :: xs =>
    if x = c then some ([], xs)
    else
      match splitAtFirst c xs with
      | some (l, r) => some (x :: l, r)
      | Option.none => Option.none

/-- Anchored match of the sub-pattern `[\w\.-]+\.\w+` against everything after
the `@`: split at the last `.` (the first `.` of the reversal); before it a
nonempty run of `[\w\.-]`, after it a nonempty run of `\w`. -/
def matchDomain (r : List Char) : Bool :=
  match splitAtFirst '.' r.reverse with
  | some (tldRev, domRev) =>
    !tldRev.isEmpty && tldRev.all isWordChar &&
    !domRev.isEmpty && domRev.all isLocalChar
  | Option.none => false

/-- Fully anchored match of `[\w\.-]+@[\w\.-]+\.\w+` against the whole list:
split at the first `@` (the classes `[\w\.-]` and `\w` exclude `@`, so a match
has exactly one); before it a nonempty run of `[\w\.-]`, after it the domain
sub-pattern. -/
def matchEmailAnchored (cs : List Char) : Bool :=
  match splitAtFirst '@' cs with
  | some (lpart, rest) =>
    !lpart.isEmpty && lpart.all isLocalChar && matchDomain rest
  | Option.none => false

namespace User

/-- `User.validate_email`: `re.match(r'^[\w\.-]+@[\w\.-]+\.\w+$', email) is
not None`.  The second disjunct is Python's `$`: it also matches just before
one final newline. -/
def validate_email (email : String) : Bool :=
  matchEmailAnchored email.data ||
    match email.data.getLast? with
    | some c => c == '\n' && matchEmailAnchored email.data.dropLast
    | Option.none => false

/-- `User.set_email`: raise `ValueError("Invalid email address")` when
`validate_email` fails (before any assignment, so the receiver is unchanged),
otherwise assign the email column. -/
def set_email (u : User) (email : String) : Option PyError × User :=
  if validate_email email then (Option.none, { u with email := some email })
  else (some (PyError.valueError "Invalid email address"), u)

/-- `User.set_password`: `self.salt = os.urandom(32)` (the bytes the external
`os.urandom` call returned are the explicit `salt` argument), then
`self.password = hashlib.pbkdf2_hmac('sha256', password.encode('utf-8'),
self.salt, 100000)`.  Never raises. -/
def set_password (h : Pbkdf2) (salt : List Nat) (u : User) (password : String) :
    User :=
  let u1 := { u with salt := some salt }
  { u1 with
    password := some (PyVal.bytes (h (utf8Encode password) salt 100000)) }

/-- `User.check_password`: recompute
`hashlib.pbkdf2_hmac('sha256', password.encode('utf-8'), self.salt, 100000)`
and compare it with `self.password` under Python `==` (comparing `bytes`
against `None` or a `str` is `False`, not an error).  Reading `self.salt` on
an instance where `set_password` never ran raises `AttributeError`. -/
def check_password (h : Pbkdf2) (u : User) (password : String) :
    Except PyError Bool :=
  match u.salt with
  | Option.none => Except.error (PyError.attributeError "salt")
  | some s =>
    Except.ok (decide (some (PyVal.bytes (h (utf8Encode password) s 100000))
      = u.password))

/-- `User.serialize`: the dict literal of `models.py`, as an association list
in source order. -/
def serialize (u : User) : List (String × PyVal) :=
  [("id", optInt u.id),
   ("username", optStr u.username),
   ("email", optStr u.email),
   ("first_name", optStr u.first_name),
   ("last_name", optStr u.last_name),
   ("followed_users", optInt u.followed_users),
   ("users_following_me", optInt u.users_following_me)]

end User

/-!
## `datetime.strptime(date_str, '%d-%m-%Y')`

CPython's `_strptime` compiles the format into the regex
`(?P<d>3[0-1]|[1-2]\d|0[1-9]|[1-9]| [1-9])\-(?P<m>1[0-2]|0[1-9]|[1-9])\-(?P<Y>\d\d\d\d)`
(these are the literal `TimeRE` patterns of CPython 3.11), matches it at the
start of the string, rejects when unconverted data remains (so the match must
consume the whole string), converts each captured group with `int(...)`, and
then constructs `datetime(year, month, day)`, which raises `ValueError`
unless `MINYEAR = 1 ≤ year` and `day` does not exceed the length of that
month (the regexes force `1 ≤ day ≤ 31` and `1 ≤ month ≤ 12`).

Consequences embedded below:

* `%d` and `%m` accept one *or* two digits (`"1-1-2024"` parses), and `%d`
  additionally accepts a space-padded single digit (`" 1-1-2024"` parses);
  `%Y` is exactly four digits; calendar validity is checked (`"31-04-2024"`
  does not parse).
* The explicit digits and classes `3`, `[0-1]`, `[1-2]`, `0`, `[1-9]` are
  ASCII, but `\d` matches any Unicode decimal digit (category `Nd`), and
  `int()` converts such digits by their decimal value.  So the *second* digit
  of a two-digit day 10–29 and all four year digits may be non-ASCII
  (`"1٣-12-٢٠٢٤"` parses as day 13, year 2024) while the month is ASCII-only.
  `ndBases` below enumerates the Unicode `Nd` runs as matched by CPython's
  `\d` (Unicode 14.0); every `Nd` run is ten consecutive code points with
  decimal values `0..9` in order.
* Alternations are tried left to right with backtracking; whenever a
  one-digit branch is forced although two digit characters are present, the
  second digit then sits where the format's literal `-` is required, so the
  whole match fails.  The scanners below return `none` in exactly those
  situations, which is equivalent at the whole-format level because a number
  group here is always followed by `-` or the end, never by a digit.
-/

/-- The numeric value of an ASCII decimal digit character. -/
def digitVal (c : Char) : Nat := c.toNat - 48

/-- The number denoted by a list of ASCII decimal digit characters (most
significant first). -/
def digitsToNat (ds : List Char) : Nat :=
  ds.foldl (fun acc c => 10 * acc + digitVal c) 0

/-- The base code points of the Unicode `Nd` (decimal digit) runs matched by
CPython's regex class `\d` (Unicode 14.0).  Each run is the ten consecutive
code points `base..base+9`, denoting the decimal values `0..9`. -/
def ndBases : List Nat := [
   48, 1632, 1776, 1984, 2406, 2534, 2662, 2790, 2918, 3046,
   3174, 3302, 3430, 3558, 3664, 3792, 3872, 4160, 4240, 6112,
   6160, 6470, 6608, 6784, 6800, 6992, 7088, 7232, 7248, 42528,
   43216, 43264, 43472, 43504, 43600, 44016, 65296, 66720, 68912, 69734,
   69872, 69942, 70096, 70384, 70736, 70864, 71248, 71360, 71472, 71904,
   72016, 72784, 73040, 73120, 92768, 92864, 93008, 120782, 120792, 120802,
   120812, 120822, 123200, 123632, 125264, 130032
  ]

/-- The decimal value of a Unicode decimal-digit character (`\d` / category
`Nd`), or `none` when the character is not one.  This is both the regex class
`\d` and the per-character value `int()` uses. -/
def digitValue? (c : Char) : Option Nat :=
  match ndBases.find? (fun b => decide (b ≤ c.toNat) && decide (c.toNat ≤ b + 9)) with
  | some b => some (c.toNat - b)
  | Option.none => Option.none

/-- Match the `%m` alternation `1[0-2]|0[1-9]|[1-9]` (all classes ASCII):
two ASCII digits whose value lies in `1..maxV` (with `maxV = 12` this is
exactly `1[0-2]|0[1-9]`), else a single nonzero ASCII digit.  Returns the
`int()` value of the group and the unconsumed rest. -/
def matchNum (maxV : Nat) : List Char → Option (Nat × List Char)
  | c1 :: c2 :: rest =>
    if c1.isDigit && c2.isDigit then
      if 1 ≤ 10 * digitVal c1 + digitVal c2 ∧ 10 * digitVal c1 + digitVal c2 ≤ maxV
      then some (10 * digitVal c1 + digitVal c2, rest)
      else Option.none
    else if c1.isDigit && c1 ≠ '0' then some (digitVal c1, c2 :: rest)
    else Option.none
  | [c1] =>
    if c1.isDigit && c1 ≠ '0' then some (digitVal c1, []) else Option.none
  | [] => Option.none

/-- Match the `%d` alternation `3[0-1]|[1-2]\d|0[1-9]|[1-9]| [1-9]`: only the
`\d` after `[1-2]` is Unicode-open, every other position is ASCII (including
the space-padded branch).  Returns the `int()` value of the group and the
unconsumed rest. -/
def matchDay : List Char → Option (Nat × List Char)
  | c1 :: c2 :: rest =>
    if c1 = '3' then
      if c2 = '0' ∨ c2 = '1' then some ((if c2 = '1' then 31 else 30), rest)
      else some (digitVal c1, c2 :: rest)
    else if c1 = '1' ∨ c1 = '2' then
      match digitValue? c2 with
      | some v2 => some (10 * digitVal c1 + v2, rest)
      | Option.none => some (digitVal c1, c2 :: rest)
    else if c1 = '0' then
      if c2.isDigit ∧ c2 ≠ '0' then some (digitVal c2, rest) else Option.none
    else if c1 = ' ' then
      if c2.isDigit ∧ c2 ≠ '0' then some (digitVal c2, rest) else Option.none
    else if c1.isDigit then some (digitVal c1, c2 :: rest)
    else Option.none
  | [c1] =>
    if c1.isDigit ∧ c1 ≠ '0' then some (digitVal c1, []) else Option.none
  | [] => Option.none

/-- Match `%Y`: exactly four Unicode decimal digits, converted positionally
as `int()` does. -/
def matchYear : List Char → Option (Nat × List Char)
  | a :: b :: c :: d :: rest =>
    match digitValue? a, digitValue? b, digitValue? c, digitValue? d with
    | some va, some vb, some vc, some vd =>
      some (1000 * va + 100 * vb + 10 * vc + vd, rest)
    | _, _, _, _ => Option.none
  | _ => Option.none

/-- The Gregorian leap-year rule used by `datetime`. -/
def isLeapYear (y : Nat) : Bool :=
  (y % 4 == 0 && y % 100 != 0) || y % 400 == 0

/-- Number of days of month `m` in year `y` (as in `datetime`). -/
def daysInMonth (m y : Nat) : Nat :=
  if m = 2 then (if isLeapYear y then 29 else 28)
  else if m = 4 ∨ m = 6 ∨ m = 9 ∨ m = 11 then 30
  else 31

/-- `datetime.strptime(s, '%d-%m-%Y')`: `none` models the `ValueError` raised
on a failed match, on unconverted trailing data, or by the `datetime`
constructor (year below `MINYEAR = 1`, or day exceeding the month's length);
`some (d, m, y)` the parsed datetime. -/
def strptime_dmY (s : String) : Option (Nat × Nat × Nat) :=
  match matchDay s.data with
  | some (d, c1 :: rest1) =>
    if c1 = '-' then
      match matchNum 12 rest1 with
      | some (m, c2 :: rest2) =>
        if c2 = '-' then
          match matchYear rest2 with
          | some (y, rest3) =>
            if rest3 = [] then
              if 1 ≤ y ∧ d ≤ daysInMonth m y then some (d, m, y)
              else Option.none
            else Option.none
          | Option.none => Option.none
        else Option.none
      | _ => Option.none
    else Option.none
  | _ => Option.none

/-- The `Event` model.  Enum-typed columns are kept as their string values;
`date` is declared `Integer` but `set_date` assigns a `datetime` object to it,
so it is kept as an optional `PyVal`. -/
structure Event where
  id : Option Int
  user_owner : Option Int
  name : Option String
  type : Option String
  date : Option PyVal
  place : Option String
  duration : Option Int
  description : Option String
  language : Option String
  gender : Option String
  price_type : Option String
  price : Option Int
  min_age : Option Int
  max_age : Option Int
  min_people : Option Int
  max_people : Option Int
  lgtbi : Option Bool
  pet_friendly : Option Bool
  kid_friendly : Option Bool
deriving DecidableEq, Repr

/-- An action issued to the external storage collaborator `db.session`. -/
inductive DbAction
  | add
  | commit
deriving DecidableEq, Repr

/-- One SQL `CHECK` constraint of `__table_args__`: its name and its predicate
on a row.  In SQL a `CHECK` passes when its condition is true *or unknown*, so
a `NULL` operand never violates it. -/
structure CheckConstraint where
  name : String
  holds_for : Event → Bool

namespace Event

/-- A freshly constructed `Event()`: every column reads `None`. -/
def new : Event :=
  { id := Option.none, user_owner := Option.none, name := Option.none,
    type := Option.none, date := Option.none, place := Option.none,
    duration := Option.none, description := Option.none,
    language := Option.none, gender := Option.none, price_type := Option.none,
    price := Option.none, min_age := Option.none, max_age := Option.none,
    min_people := Option.none, max_people := Option.none,
    lgtbi := Option.none, pet_friendly := Option.none,
    kid_friendly := Option.none }

/-- `Event.validate_date`: `datetime.strptime(date_str, '%d-%m-%Y')` inside a
`try`, `True` on success and `False` on `ValueError`. -/
def validate_date (date_str : String) : Bool :=
  (strptime_dmY date_str).isSome

/-- `Event.set_date`: raise
`ValueError("Invalid date format. Date should be in the format 'DD-MM-YYYY'")`
when `validate_date` fails (receiver unchanged), otherwise store the parsed
`datetime` in the `date` field. -/
def set_date (e : Event) (date_str : String) : Option PyError × Event :=
  match strptime_dmY date_str with
  | some (d, m, y) => (Option.none, { e with date := some (PyVal.datetime d m y) })
  | Option.none =>
    (some (PyError.valueError
      "Invalid date format. Date should be in the format 'DD-MM-YYYY'"), e)

/-- `Event.__table_args__`: the four declared SQL `CHECK` constraints.  They
are data handed to the external storage collaborator, not code run by this
core; a `NULL` bound satisfies a `CHECK` (unknown is not a violation). -/
def table_args : List CheckConstraint :=
  [⟨"event_min_age_positive",
    fun e => match e.min_age with
      | Option.none => true
      | some v => decide (0 ≤ v)⟩,
   ⟨"event_max_age_greater_than_min_age",
    fun e => match e.min_age, e.max_age with
      | some mn, some mx => decide (mn ≤ mx)
      | _, _ => true⟩,
   ⟨"event_min_people_positive",
    fun e => match e.min_people with
      | Option.none => true
      | some v => decide (0 ≤ v)⟩,
   ⟨"event_max_people_greater_than_min_people",
    fun e => match e.min_people, e.max_people with
      | some mn, some mx => decide (mn ≤ mx)
      | _, _ => true⟩]

/-- `Event.validate_age_range`: raise
`ValueError("min_age must be less than or equal to max_age")` when both bounds
are set and `min_age > max_age`; otherwise do nothing. -/
def validate_age_range (e : Event) : Except PyError Unit :=
  match e.min_age, e.max_age with
  | some mn, some mx =>
    if mn > mx then
      Except.error (PyError.valueError
        "min_age must be less than or equal to max_age")
    else Except.ok ()
  | _, _ => Except.ok ()

/-- `Event.validate_people_range`: raise
`ValueError("min_people must be less than or equal to max_people")` when both
bounds are set and `min_people > max_people`; otherwise do nothing. -/
def validate_people_range (e : Event) : Except PyError Unit :=
  match e.min_people, e.max_people with
  | some mn, some mx =>
    if mn > mx then
      Except.error (PyError.valueError
        "min_people must be less than or equal to max_people")
    else Except.ok ()
  | _, _ => Except.ok ()

/-- `Event.save`: `validate_age_range()`, then `validate_people_range()`, then
`db.session.add(self)` and `db.session.commit()`.  The result is the raised
exception (if any) together with the trace of actions issued to the storage
collaborator: an exception propagates out of `save` before the `add` line is
reached, so the trace is empty on error. -/
def save (e : Event) : Option PyError × List DbAction :=
  match validate_age_range e with
  | Except.error er => (some er, [])
  | Except.ok _ =>
    match validate_people_range e with
    | Except.error er => (some er, [])
    | Except.ok _ => (Option.none, [DbAction.add, DbAction.commit])

/-- `Event.serialize`: the dict literal of `models.py`, as an association list
in source order. -/
def serialize (e : Event) : List (String × PyVal) :=
  [("id", optInt e.id),
   ("user_owner", optInt e.user_owner),
   ("name", optStr e.name),
   ("type", optStr e.type),
   ("date", optVal e.date),
   ("place", optStr e.place),
   ("duration", optInt e.duration),
   ("description", optStr e.description),
   ("language", optStr e.language),
   ("gender", optStr e.gender),
   ("price_type", optStr e.price_type),
   ("price", optInt e.price),
   ("min_age", optInt e.min_age),
   ("max_age", optInt e.max_age),
   ("min_people", optInt e.min_people),
   ("max_people", optInt e.max_people),
   ("lgtbi", optBool e.lgtbi),
   ("pet_friendly", optBool e.pet_friendly),
   ("kid_friendly", optBool e.kid_friendly)]

end Event

/-- The `Signedup_events` model: a join record. -/
structure Signedup_events where
  id : Option Int
  user_id : Option Int
  event_id : Option Int
deriving DecidableEq, Repr

namespace Signedup_events

/-- `Signedup_events.serialize`: the dict literal of `models.py`. -/
def serialize (r : Signedup_events) : List (String × PyVal) :=
  [("id", optInt r.id),
   ("user_id", optInt r.user_id),
   ("event_id", optInt r.event_id)]

end Signedup_events

/-!
## Specification-side reading of the email pattern

`CoreEmail cs` is the declarative matching relation of the anchored regex
`[\w\.-]+@[\w\.-]+\.\w+` against the whole of `cs`: some decomposition into a
nonempty `[\w\.-]` run, `@`, a nonempty `[\w\.-]` run, `.`, and a nonempty
`\w` run (the top-level segment).  `EmailPattern s` adds Python's `$`
semantics: the pattern may also match everything but one final newline. -/

/-- A nonempty run of characters of the class `[\w\.-]`. -/
def LocalSeg (l : List Char) : Prop :=
  l ≠ [] ∧ ∀ c ∈ l, isLocalChar c = true

/-- A nonempty run of characters of the class `\w`. -/
def WordSeg (l : List Char) : Prop :=
  l ≠ [] ∧ ∀ c ∈ l, isWordChar c = true

/-- Declarative anchored matching of `[\w\.-]+@[\w\.-]+\.\w+`. -/
def CoreEmail (cs : List Char) : Prop :=
  ∃ a b t, cs = a ++ '@' :: (b ++ '.' :: t) ∧ LocalSeg a ∧ LocalSeg b ∧ WordSeg t

/-- Declarative matching of `^[\w\.-]+@[\w\.-]+\.\w+$` under Python `re`
semantics (`re.match` anchors at the start; `$` matches at the end or just
before a single final newline). -/
def EmailPattern (s : String) : Prop :=
  CoreEmail s.data ∨ ∃ t, s.data = t ++ ['\n'] ∧ CoreEmail t

theorem isEmpty_false_iff {α : Type} {l : List α} : l.isEmpty = false ↔ l ≠ [] := by
  cases l <;> simp

theorem splitAtFirst_eq_some {c : Char} {l l1 l2 : List Char}
    (h : splitAtFirst c l = some (l1, l2)) : l = l1 ++ c :: l2 ∧ c ∉ l1 := by
  induction l generalizing l1 l2 with
  | nil => simp [splitAtFirst] at h
  | cons x xs ih =>
    rw [splitAtFirst] at h
    by_cases hx : x = c
    · subst hx
      rw [if_pos rfl] at h
      simp only [Option.some.injEq, Prod.mk.injEq] at h
      obtain ⟨rfl, rfl⟩ := h
      simp
    · rw [if_neg hx] at h
      cases hrec : splitAtFirst c xs with
      | none => rw [hrec] at h; exact absurd h (by simp)
      | some p =>
        obtain ⟨a, b⟩ := p
        rw [hrec] at h
        simp only [Option.some.injEq, Prod.mk.injEq] at h
        obtain ⟨rfl, rfl⟩ := h
        obtain ⟨ha, hna⟩ := ih hrec
        subst ha
        refine ⟨rfl, ?_⟩
        intro hmem
        rcases List.mem_cons.mp hmem with hc | hc
        · exact hx hc.symm
        · exact hna hc

theorem splitAtFirst_append_cons {c : Char} {l1 : List Char} (h : c ∉ l1)
    (l2 : List Char) : splitAtFirst c (l1 ++ c :: l2) = some (l1, l2) := by
  induction l1 with
  | nil => simp [splitAtFirst]
  | cons x xs ih =>
    have hx : x ≠ c := by
      rintro rfl
      exact h (List.mem_cons_self x xs)
    have hxs : c ∉ xs := fun hm => h (List.mem_cons_of_mem _ hm)
    rw [List.cons_append, splitAtFirst, if_neg hx, ih hxs]

theorem isLocalChar_ne_at {c : Char} (h : isLocalChar c = true) : c ≠ '@' := by
  rintro rfl
  exact absurd h (by decide)

theorem isWordChar_ne_dot {c : Char} (h : isWordChar c = true) : c ≠ '.' := by
  rintro rfl
  exact absurd h (by decide)

theorem matchDomain_iff {r : List Char} :
    matchDomain r = true ↔ ∃ b t, r = b ++ '.' :: t ∧ LocalSeg b ∧ WordSeg t := by
  constructor
  · intro h
    rw [matchDomain] at h
    cases hsp : splitAtFirst '.' r.reverse with
    | none => rw [hsp] at h; exact absurd h (by simp)
    | some p =>
      obtain ⟨tldRev, domRev⟩ := p
      rw [hsp] at h
      simp only [Bool.and_eq_true, Bool.not_eq_true', isEmpty_false_iff,
        List.all_eq_true] at h
      obtain ⟨⟨⟨htne, htw⟩, hdne⟩, hdl⟩ := h
      obtain ⟨hr, _⟩ := splitAtFirst_eq_some hsp
      refine ⟨domRev.reverse, tldRev.reverse, ?_, ⟨?_, ?_⟩, ?_, ?_⟩
      · have := congrArg List.reverse hr
        rw [List.reverse_reverse] at this
        rw [this, List.reverse_append, List.reverse_cons, List.append_assoc]
        simp
      · simpa using hdne
      · intro c hc
        exact hdl c (List.mem_reverse.mp hc)
      · simpa using htne
      · intro c hc
        exact htw c (List.mem_reverse.mp hc)
  · rintro ⟨b, t, rfl, ⟨hbne, hbl⟩, htne, htw⟩
    have hdot : '.' ∉ t.reverse := by
      intro hm
      exact isWordChar_ne_dot (htw '.' (List.mem_reverse.mp hm)) rfl
    have hrev : (b ++ '.' :: t).reverse = t.reverse ++ '.' :: b.reverse := by
      rw [List.reverse_append, List.reverse_cons, List.append_assoc]
      simp
    rw [matchDomain, hrev, splitAtFirst_append_cons hdot]
    simp only [Bool.and_eq_true, Bool.not_eq_true', isEmpty_false_iff,
      List.all_eq_true]
    refine ⟨⟨⟨by simpa using htne, ?_⟩, by simpa using hbne⟩, ?_⟩
    · intro c hc
      exact htw c (List.mem_reverse.mp hc)
    · intro c hc
      exact hbl c (List.mem_reverse.mp hc)

theorem matchEmailAnchored_iff_core {cs : List Char} :
    matchEmailAnchored cs = true ↔ CoreEmail cs := by
  constructor
  · intro h
    rw [matchEmailAnchored] at h
    cases hsp : splitAtFirst '@' cs with
    | none => rw [hsp] at h; exact absurd h (by simp)
    | some p =>
      obtain ⟨lpart, rest⟩ := p
      rw [hsp] at h
      simp only [Bool.and_eq_true, Bool.not_eq_true', isEmpty_false_iff,
        List.all_eq_true] at h
      obtain ⟨⟨hlne, hll⟩, hdom⟩ := h
      obtain ⟨hcs, _⟩ := splitAtFirst_eq_some hsp
      obtain ⟨b, t, hrest, hb, ht⟩ := matchDomain_iff.mp hdom
      exact ⟨lpart, b, t, by rw [hcs, hrest], ⟨hlne, hll⟩, hb, ht⟩
  · rintro ⟨a, b, t, rfl, ⟨hane, hal⟩, hb, ht⟩
    have hat : '@' ∉ a := by
      intro hm
      exact isLocalChar_ne_at (hal '@' hm) rfl
    rw [matchEmailAnchored, splitAtFirst_append_cons hat]
    simp only [Bool.and_eq_true, Bool.not_eq_true', isEmpty_false_iff,
      List.all_eq_true]
    exact ⟨⟨by simpa using hane, hal⟩, matchDomain_iff.mpr ⟨b, t, rfl, hb, ht⟩⟩

theorem getLast?_decomp {l : List Char} {a : Char} (h : l.getLast? = some a) :
    l = l.dropLast ++ [a] := by
  rcases List.eq_nil_or_concat l with rfl | ⟨l', b, rfl⟩
  · exact absurd h (by simp)
  · rw [List.concat_eq_append] at h ⊢
    rw [List.getLast?_concat] at h
    obtain rfl := Option.some.inj h
    rw [List.dropLast_concat]

theorem validate_email_iff {s : String} :
    User.validate_email s = true ↔ EmailPattern s := by
  rw [User.validate_email, Bool.or_eq_true]
  constructor
  · rintro (h | h)
    · exact Or.inl (matchEmailAnchored_iff_core.mp h)
    · cases hlast : s.data.getLast? with
      | none => rw [hlast] at h; exact absurd h (by simp)
      | some c =>
        rw [hlast] at h
        simp only [Bool.and_eq_true, beq_iff_eq] at h
        obtain ⟨rfl, hm⟩ := h
        exact Or.inr ⟨s.data.dropLast, getLast?_decomp hlast,
          matchEmailAnchored_iff_core.mp hm⟩
  · rintro (h | ⟨t, ht, hc⟩)
    · exact Or.inl (matchEmailAnchored_iff_core.mpr h)
    · refine Or.inr ?_
      rw [ht, List.getLast?_concat, List.dropLast_concat]
      simp only [Bool.and_eq_true, beq_iff_eq]
      exact ⟨by simp, matchEmailAnchored_iff_core.mpr hc⟩

theorem CoreEmail.mem_at {cs : List Char} (h : CoreEmail cs) : '@' ∈ cs := by
  obtain ⟨a, b, t, rfl, _, _, _⟩ := h
  exact List.mem_append.mpr (Or.inr (List.mem_cons_self _ _))

theorem CoreEmail.mem_dot {cs : List Char} (h : CoreEmail cs) : '.' ∈ cs := by
  obtain ⟨a, b, t, rfl, _, _, _⟩ := h
  refine List.mem_append.mpr (Or.inr (List.mem_cons_of_mem _ ?_))
  exact List.mem_append.mpr (Or.inr (List.mem_cons_self _ _))

/-!
## Specification-side reading of the date format

`DMYDate s` is the declarative characterization of the strings accepted by
`strptime_dmY`: a day token, a literal `-`, a month token, a literal `-`, a
year token, nothing after them, year at least `MINYEAR = 1`, and the day not
exceeding the length of that month in that year.  The token predicates
`DayToken`, `MonthToken` and `YearToken` are the declarative (alternation)
semantics of the three group regexes together with their `int()` values;
`DayToken_bounds` / `MonthToken_bounds` / `YearToken_bounds` show they mean a
one- or two-character day valued in `1..31`, a one- or two-digit month valued
in `1..12`, and a four-digit year valued at most `9999`.  `SpecTwoDigitDMY s`
is the claim's stricter reading in which the day and the month must have
exactly two digits. -/

/-- A run of ASCII decimal digit characters. -/
def DigitSeg (ds : List Char) : Prop := ∀ c ∈ ds, c.isDigit = true

/-- A run of Unicode decimal digit characters (regex class `\d`). -/
def UDigitSeg (ds : List Char) : Prop := ∀ c ∈ ds, (digitValue? c).isSome = true

/-- Declarative semantics of the `%d` group `3[0-1]|[1-2]\d|0[1-9]|[1-9]| [1-9]`
with its `int()` value: the five alternation branches. -/
def DayToken (dd : List Char) (d : Nat) : Prop :=
  (dd = ['3', '0'] ∧ d = 30) ∨
  (dd = ['3', '1'] ∧ d = 31) ∨
  (∃ c1 c2 v2, dd = [c1, c2] ∧ (c1 = '1' ∨ c1 = '2') ∧
    digitValue? c2 = some v2 ∧ d = 10 * digitVal c1 + v2) ∨
  (∃ c2, dd = ['0', c2] ∧ c2.isDigit = true ∧ c2 ≠ '0' ∧ d = digitVal c2) ∨
  (∃ c2, dd = [' ', c2] ∧ c2.isDigit = true ∧ c2 ≠ '0' ∧ d = digitVal c2) ∨
  (∃ c1, dd = [c1] ∧ c1.isDigit = true ∧ c1 ≠ '0' ∧ d = digitVal c1)

/-- Declarative semantics of the `%m` group `1[0-2]|0[1-9]|[1-9]` with its
`int()` value: two ASCII digits valued in `1..12`, or one nonzero ASCII
digit. -/
def MonthToken (mm : List Char) (m : Nat) : Prop :=
  (∃ c1 c2, mm = [c1, c2] ∧ c1.isDigit = true ∧ c2.isDigit = true ∧
    m = 10 * digitVal c1 + digitVal c2 ∧ 1 ≤ m ∧ m ≤ 12) ∨
  (∃ c1, mm = [c1] ∧ c1.isDigit = true ∧ c1 ≠ '0' ∧ m = digitVal c1)

/-- Declarative semantics of the `%Y` group `\d\d\d\d` with its `int()`
value: four Unicode decimal digits, converted positionally. -/
def YearToken (yy : List Char) (y : Nat) : Prop :=
  ∃ a b c d va vb vc vd, yy = [a, b, c, d] ∧
    digitValue? a = some va ∧ digitValue? b = some vb ∧
    digitValue? c = some vc ∧ digitValue? d = some vd ∧
    y = 1000 * va + 100 * vb + 10 * vc + vd

/-- Declarative characterization of the inputs `datetime.strptime(·,
'%d-%m-%Y')` accepts. -/
def DMYDate (s : String) : Prop :=
  ∃ dd mm yy d m y,
    s.data = dd ++ '-' :: (mm ++ '-' :: yy) ∧
    DayToken dd d ∧ MonthToken mm m ∧ YearToken yy y ∧
    1 ≤ y ∧ d ≤ daysInMonth m y

/-- The reading of the claim in which the day and the month must have exactly
two digits. -/
def SpecTwoDigitDMY (s : String) : Prop :=
  ∃ dd mm yy,
    s.data = dd ++ '-' :: (mm ++ '-' :: yy) ∧
    dd.length = 2 ∧ UDigitSeg dd ∧ mm.length = 2 ∧ UDigitSeg mm ∧
    yy.length = 4 ∧ UDigitSeg yy

theorem char_eq_of_toNat_eq {c d : Char} (h : c.toNat = d.toNat) : c = d :=
  Char.eq_of_val_eq (UInt32.ext h)

theorem isDigit_bounds {c : Char} (h : c.isDigit = true) :
    48 ≤ c.toNat ∧ c.toNat ≤ 57 := by
  simp [Char.isDigit] at h
  exact h

theorem digitVal_lt_ten {c : Char} (h : c.isDigit = true) : digitVal c < 10 := by
  obtain ⟨h1, h2⟩ := isDigit_bounds h
  rw [digitVal]
  omega

theorem digitVal_pos {c : Char} (hd : c.isDigit = true) (h0 : c ≠ '0') :
    1 ≤ digitVal c := by
  obtain ⟨h1, h2⟩ := isDigit_bounds hd
  rw [digitVal]
  have h48 : ('0').toNat = 48 := rfl
  rcases Nat.lt_or_ge 48 c.toNat with hlt | hge
  · omega
  · exact absurd (char_eq_of_toNat_eq (by omega)) h0

theorem ne_zero_of_digitVal_pos {c : Char} (h : 1 ≤ digitVal c) : c ≠ '0' := by
  rintro rfl
  exact absurd h (by decide)

theorem digitsToNat_one (c : Char) : digitsToNat [c] = digitVal c := by
  simp [digitsToNat]

theorem digitsToNat_two (c1 c2 : Char) :
    digitsToNat [c1, c2] = 10 * digitVal c1 + digitVal c2 := by
  simp [digitsToNat]

theorem matchNum_sound {maxV : Nat} (hmax : 9 ≤ maxV) {cs rest : List Char}
    {v : Nat} (h : matchNum maxV cs = some (v, rest)) :
    ∃ ds, cs = ds ++ rest ∧ (ds.length = 1 ∨ ds.length = 2) ∧ DigitSeg ds ∧
      digitsToNat ds = v ∧ 1 ≤ v ∧ v ≤ maxV := by
  match cs with
  | [] => simp [matchNum] at h
  | [c1] =>
    rw [matchNum] at h
    split at h
    · rename_i hc
      simp only [Bool.and_eq_true, decide_eq_true_eq] at hc
      obtain ⟨hd, h0⟩ := hc
      simp only [Option.some.injEq, Prod.mk.injEq] at h
      obtain ⟨rfl, rfl⟩ := h
      refine ⟨[c1], by simp, Or.inl rfl, ?_, digitsToNat_one c1,
        digitVal_pos hd h0, ?_⟩
      · intro c hc
        rcases List.mem_singleton.mp hc with rfl
        exact hd
      · have := digitVal_lt_ten hd
        omega
    · exact absurd h (by simp)
  | c1 :: c2 :: rest' =>
    rw [matchNum] at h
    split at h
    · rename_i hc
      simp only [Bool.and_eq_true] at hc
      obtain ⟨hd1, hd2⟩ := hc
      split at h
      · rename_i hv
        obtain ⟨hv1, hv2⟩ := hv
        simp only [Option.some.injEq, Prod.mk.injEq] at h
        obtain ⟨rfl, rfl⟩ := h
        refine ⟨[c1, c2], by simp, Or.inr rfl, ?_, digitsToNat_two c1 c2,
          hv1, hv2⟩
        intro c hc
        rcases List.mem_cons.mp hc with rfl | hc
        · exact hd1
        · rcases List.mem_singleton.mp hc with rfl
          exact hd2
      · exact absurd h (by simp)
    · split at h
      · rename_i hc2
        simp only [Bool.and_eq_true, decide_eq_true_eq] at hc2
        obtain ⟨hd, h0⟩ := hc2
        simp only [Option.some.injEq, Prod.mk.injEq] at h
        obtain ⟨rfl, rfl⟩ := h
        refine ⟨[c1], by simp, Or.inl rfl, ?_, digitsToNat_one c1,
          digitVal_pos hd h0, ?_⟩
        · intro c hc
          rcases List.mem_singleton.mp hc with rfl
          exact hd
        · have := digitVal_lt_ten hd
          omega
      · exact absurd h (by simp)

theorem matchNum_complete_one {maxV : Nat} {c : Char} (hd : c.isDigit = true)
    (h1 : 1 ≤ digitVal c) (r : List Char) :
    matchNum maxV (c :: '-' :: r) = some (digitVal c, '-' :: r) := by
  have hnd : ('-').isDigit = false := by decide
  have h0 : c ≠ '0' := ne_zero_of_digitVal_pos h1
  rw [matchNum, if_neg (by simp [hnd]), if_pos (by simp [hd, h0])]

theorem matchNum_complete_two {maxV : Nat} {c1 c2 : Char}
    (hd1 : c1.isDigit = true) (hd2 : c2.isDigit = true)
    (hv1 : 1 ≤ 10 * digitVal c1 + digitVal c2)
    (hv2 : 10 * digitVal c1 + digitVal c2 ≤ maxV) (r : List Char) :
    matchNum maxV (c1 :: c2 :: r) = some (10 * digitVal c1 + digitVal c2, r) := by
  rw [matchNum, if_pos (by simp [hd1, hd2]), if_pos ⟨hv1, hv2⟩]

theorem digitValue?_le_nine {c : Char} {v : Nat} (h : digitValue? c = some v) :
    v ≤ 9 := by
  rw [digitValue?] at h
  cases hf : ndBases.find? (fun b => decide (b ≤ c.toNat) && decide (c.toNat ≤ b + 9)) with
  | none => rw [hf] at h; exact absurd h (by simp)
  | some b =>
    rw [hf] at h
    have hp := List.find?_some hf
    simp only [Bool.and_eq_true, decide_eq_true_eq] at hp
    simp only [Option.some.injEq] at h
    omega

theorem matchMonth_sound {cs rest : List Char} {m : Nat}
    (h : matchNum 12 cs = some (m, rest)) :
    ∃ mm, cs = mm ++ rest ∧ MonthToken mm m := by
  obtain ⟨ds, hcs, hlen, hdig, hval, h1, h2⟩ := matchNum_sound (by omega) h
  rcases hlen with hl | hl
  · obtain ⟨c, rfl⟩ := List.length_eq_one.mp hl
    rw [digitsToNat_one] at hval
    refine ⟨[c], hcs, Or.inr ⟨c, rfl, hdig c (by simp), ?_, hval.symm⟩⟩
    apply ne_zero_of_digitVal_pos
    rw [hval]
    exact h1
  · obtain ⟨c1, c2, rfl⟩ := List.length_eq_two.mp hl
    rw [digitsToNat_two] at hval
    exact ⟨[c1, c2], hcs, Or.inl ⟨c1, c2, rfl, hdig c1 (by simp),
      hdig c2 (by simp), hval.symm, h1, h2⟩⟩

theorem matchMonth_complete {mm : List Char} {m : Nat} (h : MonthToken mm m)
    (r : List Char) : matchNum 12 (mm ++ '-' :: r) = some (m, '-' :: r) := by
  rcases h with ⟨c1, c2, rfl, hd1, hd2, rfl, h1, h2⟩ | ⟨c1, rfl, hd, h0, rfl⟩
  · simpa using matchNum_complete_two hd1 hd2 h1 h2 ('-' :: r)
  · simpa using matchNum_complete_one hd (digitVal_pos hd h0) r

theorem matchDay_sound {cs rest : List Char} {d : Nat}
    (h : matchDay cs = some (d, rest)) :
    ∃ dd, cs = dd ++ rest ∧ DayToken dd d := by
  match cs with
  | [] => simp [matchDay] at h
  | [c1] =>
    rw [matchDay] at h
    split at h
    · rename_i hc
      obtain ⟨hd1, h0⟩ := hc
      simp only [Option.some.injEq, Prod.mk.injEq] at h
      obtain ⟨rfl, rfl⟩ := h
      exact ⟨[c1], by simp, Or.inr (Or.inr (Or.inr (Or.inr (Or.inr
        ⟨c1, rfl, hd1, h0, rfl⟩))))⟩
    · exact absurd h (by simp)
  | c1 :: c2 :: rest' =>
    rw [matchDay] at h
    split at h
    case isTrue hc1 =>
      subst hc1
      split at h
      case isTrue hc2 =>
        simp only [Option.some.injEq, Prod.mk.injEq] at h
        obtain ⟨rfl, rfl⟩ := h
        rcases hc2 with rfl | rfl
        · exact ⟨['3', '0'], by simp, Or.inl ⟨rfl, by decide⟩⟩
        · exact ⟨['3', '1'], by simp, Or.inr (Or.inl ⟨rfl, by decide⟩)⟩
      case isFalse hc2 =>
        simp only [Option.some.injEq, Prod.mk.injEq] at h
        obtain ⟨rfl, rfl⟩ := h
        exact ⟨['3'], by simp, Or.inr (Or.inr (Or.inr (Or.inr (Or.inr
          ⟨'3', rfl, by decide, by decide, rfl⟩))))⟩
    case isFalse hc1 =>
      split at h
      case isTrue hc12 =>
        cases hdv : digitValue? c2 with
        | some v2 =>
          rw [hdv] at h
          simp only [Option.some.injEq, Prod.mk.injEq] at h
          obtain ⟨rfl, rfl⟩ := h
          exact ⟨[c1, c2], by simp, Or.inr (Or.inr (Or.inl
            ⟨c1, c2, v2, rfl, hc12, hdv, rfl⟩))⟩
        | none =>
          rw [hdv] at h
          simp only [Option.some.injEq, Prod.mk.injEq] at h
          obtain ⟨rfl, rfl⟩ := h
          refine ⟨[c1], by simp, Or.inr (Or.inr (Or.inr (Or.inr (Or.inr
            ⟨c1, rfl, ?_, ?_, rfl⟩))))⟩
          · rcases hc12 with rfl | rfl
            · decide
            · decide
          · rcases hc12 with rfl | rfl
            · decide
            · decide
      case isFalse hc12 =>
        split at h
        case isTrue hc0 =>
          subst hc0
          split at h
          case isTrue hc2 =>
            obtain ⟨hd2, h02⟩ := hc2
            simp only [Option.some.injEq, Prod.mk.injEq] at h
            obtain ⟨rfl, rfl⟩ := h
            exact ⟨['0', c2], by simp, Or.inr (Or.inr (Or.inr (Or.inl
              ⟨c2, rfl, hd2, h02, rfl⟩)))⟩
          case isFalse => exact absurd h (by simp)
        case isFalse hc0 =>
          split at h
          case isTrue hcsp =>
            subst hcsp
            split at h
            case isTrue hc2 =>
              obtain ⟨hd2, h02⟩ := hc2
              simp only [Option.some.injEq, Prod.mk.injEq] at h
              obtain ⟨rfl, rfl⟩ := h
              exact ⟨[' ', c2], by simp, Or.inr (Or.inr (Or.inr (Or.inr
                (Or.inl ⟨c2, rfl, hd2, h02, rfl⟩))))⟩
            case isFalse => exact absurd h (by simp)
          case isFalse hcsp =>
            split at h
            case isTrue hd1 =>
              simp only [Option.some.injEq, Prod.mk.injEq] at h
              obtain ⟨rfl, rfl⟩ := h
              exact ⟨[c1], by simp, Or.inr (Or.inr (Or.inr (Or.inr (Or.inr
                ⟨c1, rfl, hd1, hc0, rfl⟩))))⟩
            case isFalse => exact absurd h (by simp)

theorem matchDay_complete {dd : List Char} {d : Nat} (h : DayToken dd d)
    (r : List Char) : matchDay (dd ++ '-' :: r) = some (d, '-' :: r) := by
  rcases h with ⟨rfl, rfl⟩ | ⟨rfl, rfl⟩ |
    ⟨c1, c2, v2, rfl, hc12, hdv, rfl⟩ | ⟨c2, rfl, hd2, h02, rfl⟩ |
    ⟨c2, rfl, hd2, h02, rfl⟩ | ⟨c1, rfl, hd1, h01, rfl⟩
  · rw [List.cons_append, List.cons_append, List.nil_append, matchDay,
      if_pos rfl, if_pos (Or.inl rfl), if_neg (by decide)]
  · rw [List.cons_append, List.cons_append, List.nil_append, matchDay,
      if_pos rfl, if_pos (Or.inr rfl), if_pos rfl]
  · have hne3 : ¬ c1 = '3' := by
      rcases hc12 with rfl | rfl
      · decide
      · decide
    rw [List.cons_append, List.cons_append, List.nil_append, matchDay,
      if_neg hne3, if_pos hc12, hdv]
  · rw [List.cons_append, List.cons_append, List.nil_append, matchDay,
      if_neg (by decide), if_neg (by decide), if_pos rfl, if_pos ⟨hd2, h02⟩]
  · rw [List.cons_append, List.cons_append, List.nil_append, matchDay,
      if_neg (by decide), if_neg (by decide), if_neg (by decide), if_pos rfl,
      if_pos ⟨hd2, h02⟩]
  · rw [List.cons_append, List.nil_append, matchDay]
    by_cases h3 : c1 = '3'
    · subst h3
      rw [if_pos rfl, if_neg (by decide)]
    by_cases h12 : c1 = '1' ∨ c1 = '2'
    · have hdv : digitValue? ('-') = Option.none := by decide
      rw [if_neg h3, if_pos h12, hdv]
    by_cases hsp : c1 = ' '
    · subst hsp
      exact absurd hd1 (by decide)
    rw [if_neg h3, if_neg h12, if_neg h01, if_neg hsp, if_pos hd1]

theorem matchYear_sound {cs rest : List Char} {y : Nat}
    (h : matchYear cs = some (y, rest)) :
    ∃ ys, cs = ys ++ rest ∧ YearToken ys y := by
  match cs with
  | [] => simp [matchYear] at h
  | [_] => simp [matchYear] at h
  | [_, _] => simp [matchYear] at h
  | [_, _, _] => simp [matchYear] at h
  | a :: b :: c :: d :: rest' =>
    rw [matchYear] at h
    split at h
    · rename_i va vb vc vd ha hb hc hd
      simp only [Option.some.injEq, Prod.mk.injEq] at h
      obtain ⟨rfl, rfl⟩ := h
      exact ⟨[a, b, c, d], by simp,
        a, b, c, d, va, vb, vc, vd, rfl, ha, hb, hc, hd, rfl⟩
    · exact absurd h (by simp)

theorem matchYear_complete {ys : List Char} {y : Nat} (h : YearToken ys y) :
    matchYear ys = some (y, []) := by
  obtain ⟨a, b, c, d, va, vb, vc, vd, rfl, ha, hb, hc, hd, rfl⟩ := h
  rw [matchYear, ha, hb, hc, hd]

theorem DayToken_bounds {dd : List Char} {d : Nat} (h : DayToken dd d) :
    1 ≤ d ∧ d ≤ 31 ∧ (dd.length = 1 ∨ dd.length = 2) := by
  rcases h with ⟨rfl, rfl⟩ | ⟨rfl, rfl⟩ |
    ⟨c1, c2, v2, rfl, hc12, hdv, rfl⟩ | ⟨c2, rfl, hd2, h02, rfl⟩ |
    ⟨c2, rfl, hd2, h02, rfl⟩ | ⟨c1, rfl, hd1, h01, rfl⟩
  · exact ⟨by omega, by omega, Or.inr rfl⟩
  · exact ⟨by omega, by omega, Or.inr rfl⟩
  · have hv2 := digitValue?_le_nine hdv
    have hc : digitVal c1 = 1 ∨ digitVal c1 = 2 := by
      rcases hc12 with rfl | rfl
      · exact Or.inl rfl
      · exact Or.inr rfl
    rcases hc with hc | hc <;> rw [hc] <;> exact ⟨by omega, by omega, Or.inr rfl⟩
  · exact ⟨digitVal_pos hd2 h02, by have := digitVal_lt_ten hd2; omega,
      Or.inr rfl⟩
  · exact ⟨digitVal_pos hd2 h02, by have := digitVal_lt_ten hd2; omega,
      Or.inr rfl⟩
  · exact ⟨digitVal_pos hd1 h01, by have := digitVal_lt_ten hd1; omega,
      Or.inl rfl⟩

theorem MonthToken_bounds {mm : List Char} {m : Nat} (h : MonthToken mm m) :
    1 ≤ m ∧ m ≤ 12 ∧ (mm.length = 1 ∨ mm.length = 2) := by
  rcases h with ⟨c1, c2, rfl, hd1, hd2, rfl, h1, h2⟩ | ⟨c1, rfl, hd, h0, rfl⟩
  · exact ⟨h1, h2, Or.inr rfl⟩
  · exact ⟨digitVal_pos hd h0, by have := digitVal_lt_ten hd; omega,
      Or.inl rfl⟩

theorem YearToken_bounds {yy : List Char} {y : Nat} (h : YearToken yy y) :
    y ≤ 9999 ∧ yy.length = 4 := by
  obtain ⟨a, b, c, d, va, vb, vc, vd, rfl, ha, hb, hc, hd, rfl⟩ := h
  have h1 := digitValue?_le_nine ha
  have h2 := digitValue?_le_nine hb
  have h3 := digitValue?_le_nine hc
  have h4 := digitValue?_le_nine hd
  exact ⟨by omega, rfl⟩

theorem strptime_sound {s : String} {d m y : Nat}
    (h : strptime_dmY s = some (d, m, y)) : DMYDate s := by
  unfold strptime_dmY at h
  split at h
  case _ d' c1 rest1 h1 =>
    split at h
    case isFalse => exact absurd h (by simp)
    case isTrue hc1 =>
      subst hc1
      split at h
      case _ m' c2 rest2 h2 =>
        split at h
        case isFalse => exact absurd h (by simp)
        case isTrue hc2 =>
          subst hc2
          split at h
          case _ y' rest3 h3 =>
            split at h
            case isFalse => exact absurd h (by simp)
            case isTrue hrest3 =>
              subst hrest3
              split at h
              case isFalse => exact absurd h (by simp)
              case isTrue hcond =>
                obtain ⟨hy1, hdm⟩ := hcond
                simp only [Option.some.injEq, Prod.mk.injEq] at h
                obtain ⟨rfl, rfl, rfl⟩ := h
                obtain ⟨dd, hdd_eq, hddtok⟩ := matchDay_sound h1
                obtain ⟨mm, hmm_eq, hmmtok⟩ := matchMonth_sound h2
                obtain ⟨yy, hyy_eq, hyytok⟩ := matchYear_sound h3
                rw [List.append_nil] at hyy_eq
                exact ⟨dd, mm, yy, d', m', y', by rw [hdd_eq, hmm_eq, hyy_eq],
                  hddtok, hmmtok, hyytok, hy1, hdm⟩
          case _ => exact absurd h (by simp)
      case _ => exact absurd h (by simp)
  case _ => exact absurd h (by simp)

theorem strptime_complete {s : String} {dd mm yy : List Char} {d m y : Nat}
    (hdata : s.data = dd ++ '-' :: (mm ++ '-' :: yy))
    (hdtok : DayToken dd d) (hmtok : MonthToken mm m) (hytok : YearToken yy y)
    (hy1 : 1 ≤ y) (hday : d ≤ daysInMonth m y) :
    strptime_dmY s = some (d, m, y) := by
  unfold strptime_dmY
  rw [hdata, matchDay_complete hdtok (mm ++ '-' :: yy)]
  simp only [matchMonth_complete hmtok, matchYear_complete hytok]
  simp [hy1, hday]

theorem validate_date_iff {s : String} :
    Event.validate_date s = true ↔ DMYDate s := by
  rw [Event.validate_date]
  constructor
  · intro h
    cases hres : strptime_dmY s with
    | none => rw [hres] at h; exact absurd h (by simp)
    | some p =>
      obtain ⟨d, m, y⟩ := p
      exact strptime_sound hres
  · rintro ⟨dd, mm, yy, d, m, y, hdata, hdtok, hmtok, hytok, hy1, hday⟩
    rw [strptime_complete hdata hdtok hmtok hytok hy1 hday]
    rfl

/-!
## The claims
-/

/-- Claim C1: password round-trip.  After `set_password p` (with any salt the
external `os.urandom(32)` produced and any behaviour of the external PBKDF2
collaborator), `check_password p` returns `True`; and every candidate `c`
whose PBKDF2-HMAC-SHA256 derivation (100,000 iterations, UTF-8 encoding,
stored salt) differs from the stored hash gets `check_password c = False`. -/
theorem c1_password_roundtrip (h : Pbkdf2) (salt : List Nat) (u : User)
    (p : String) :
    User.check_password h (User.set_password h salt u p) p = Except.ok true ∧
    ∀ c : String,
      h (utf8Encode c) salt 100000 ≠ h (utf8Encode p) salt 100000 →
      User.check_password h (User.set_password h salt u p) c =
        Except.ok false := by
  constructor
  · simp [User.check_password, User.set_password]
  · intro c hne
    simp [User.check_password, User.set_password, hne]

/-- Witness for C1 at a concrete hash function, salt, user and passwords. -/
theorem c1_witness :
    User.check_password (fun pw s _ => pw ++ s)
        (User.set_password (fun pw s _ => pw ++ s) [7] User.new "hunter2")
        "hunter2" = Except.ok true ∧
    User.check_password (fun pw s _ => pw ++ s)
        (User.set_password (fun pw s _ => pw ++ s) [7] User.new "hunter2")
        "wrong" = Except.ok false :=
  ⟨(c1_password_roundtrip (fun pw s _ => pw ++ s) [7] User.new "hunter2").1,
   (c1_password_roundtrip (fun pw s _ => pw ++ s) [7] User.new "hunter2").2
     "wrong" (by decide)⟩

/-- Claim C4: salt rotation over two runs of `set_password` with the same
plaintext.  Each run stores the salt `os.urandom(32)` returned (32 bytes by
the contract of that external call), each run leaves `check_password p =
True`, and when PBKDF2 separates the two salts on `p` (as a collision-free
key-derivation function does for distinct salts) the two stored hashes
differ. -/
theorem c4_salt_rotation (h : Pbkdf2) (s1 s2 : List Nat) (u : User)
    (p : String) :
    (User.set_password h s1 u p).salt = some s1 ∧
    (User.set_password h s2 (User.set_password h s1 u p) p).salt = some s2 ∧
    User.check_password h (User.set_password h s1 u p) p = Except.ok true ∧
    User.check_password h
      (User.set_password h s2 (User.set_password h s1 u p) p) p =
      Except.ok true ∧
    (h (utf8Encode p) s1 100000 ≠ h (utf8Encode p) s2 100000 →
      (User.set_password h s1 u p).password ≠
        (User.set_password h s2 (User.set_password h s1 u p) p).password) ∧
    (s1.length = 32 → s2.length = 32 →
      ∃ b1 b2, (User.set_password h s1 u p).salt = some b1 ∧ b1.length = 32 ∧
        (User.set_password h s2 (User.set_password h s1 u p) p).salt =
          some b2 ∧ b2.length = 32) := by
  refine ⟨rfl, rfl, ?_, ?_, ?_, ?_⟩
  · simp [User.check_password, User.set_password]
  · simp [User.check_password, User.set_password]
  · intro hne hcontra
    simp [User.set_password] at hcontra
    exact hne hcontra
  · intro h1 h2
    exact ⟨s1, s2, rfl, h1, rfl, h2⟩

/-- Witness for C4 at a concrete hash function and two concrete 32-byte
salts. -/
theorem c4_witness :
    (User.set_password (fun pw s _ => pw ++ s) (List.replicate 32 0)
        User.new "hunter2").password ≠
      (User.set_password (fun pw s _ => pw ++ s) (List.replicate 32 1)
        (User.set_password (fun pw s _ => pw ++ s) (List.replicate 32 0)
          User.new "hunter2") "hunter2").password ∧
    (∃ b1 b2,
      (User.set_password (fun pw s _ => pw ++ s) (List.replicate 32 0)
        User.new "hunter2").salt = some b1 ∧ b1.length = 32 ∧
      (User.set_password (fun pw s _ => pw ++ s) (List.replicate 32 1)
        (User.set_password (fun pw s _ => pw ++ s) (List.replicate 32 0)
          User.new "hunter2") "hunter2").salt = some b2 ∧ b2.length = 32) :=
  ⟨(c4_salt_rotation (fun pw s _ => pw ++ s) (List.replicate 32 0)
      (List.replicate 32 1) User.new "hunter2").2.2.2.2.1 (by decide),
   (c4_salt_rotation (fun pw s _ => pw ++ s) (List.replicate 32 0)
      (List.replicate 32 1) User.new "hunter2").2.2.2.2.2 (by decide)
     (by decide)⟩

/-- Claim C7: `set_email` raises `ValueError` on an invalid candidate and
then changes nothing; on a valid candidate it writes exactly the email field.
Every other field is untouched in both cases. -/
theorem c7_set_email (u : User) (c : String) :
    (User.validate_email c = false →
      User.set_email u c = (some (PyError.valueError "Invalid email address"),
        u)) ∧
    (User.validate_email c = true →
      User.set_email u c = (Option.none, { u with email := some c })) ∧
    (User.set_email u c).2.id = u.id ∧
    (User.set_email u c).2.username = u.username ∧
    (User.set_email u c).2.password = u.password ∧
    (User.set_email u c).2.first_name = u.first_name ∧
    (User.set_email u c).2.last_name = u.last_name ∧
    (User.set_email u c).2.followed_users = u.followed_users ∧
    (User.set_email u c).2.users_following_me = u.users_following_me ∧
    (User.set_email u c).2.salt = u.salt ∧
    ((User.set_email u c).1.isSome → (User.set_email u c).2 = u) := by
  rw [User.set_email]
  by_cases hv : User.validate_email c = true
  · rw [if_pos hv]
    refine ⟨?_, fun _ => rfl, rfl, rfl, rfl, rfl, rfl, rfl, rfl, rfl, ?_⟩
    · intro hf
      rw [hf] at hv
      exact absurd hv (by decide)
    · intro hs
      simp at hs
  · rw [if_neg hv]
    exact ⟨fun _ => rfl, fun ht => absurd ht hv, rfl, rfl, rfl, rfl, rfl, rfl,
      rfl, rfl, fun _ => rfl⟩

/-- Witness for C7 at a concrete invalid and a concrete valid candidate. -/
theorem c7_witness :
    User.set_email User.new "not-an-email" =
      (some (PyError.valueError "Invalid email address"), User.new) ∧
    User.set_email User.new "a.b@c.org" =
      (Option.none, { User.new with email := some "a.b@c.org" }) :=
  ⟨(c7_set_email User.new "not-an-email").1 (by decide),
   (c7_set_email User.new "a.b@c.org").2.1 (by decide)⟩

/-- Claim C10: `salt` is created only by `set_password`; on a `User` where
`set_password` never ran (fresh instance, or any sequence of the other
mutators, none of which touches `salt`), `check_password` does not return
`False` — it raises `AttributeError`. -/
theorem c10_check_password_precondition :
    (∀ (h : Pbkdf2) (u : User) (c : String), u.salt = Option.none →
      User.check_password h u c =
        Except.error (PyError.attributeError "salt")) ∧
    User.new.salt = Option.none ∧
    (∀ (u : User) (em : String), (User.set_email u em).2.salt = u.salt) ∧
    (∀ (h : Pbkdf2) (s : List Nat) (u : User) (p : String),
      (User.set_password h s u p).salt = some s) := by
  refine ⟨?_, rfl, ?_, fun h s u p => rfl⟩
  · intro h u c hs
    rw [User.check_password, hs]
  · intro u em
    rw [User.set_email]
    by_cases hv : User.validate_email em = true
    · rw [if_pos hv]
    · rw [if_neg hv]

/-- Witness for C10 at a fresh concrete user. -/
theorem c10_witness :
    User.check_password (fun pw s _ => pw ++ s) User.new "anything" =
      Except.error (PyError.attributeError "salt") :=
  c10_check_password_precondition.1 (fun pw s _ => pw ++ s) User.new
    "anything" rfl

/-- Claim C2: `save` runs `validate_age_range` and then
`validate_people_range` before any persistence action; when either raises,
that exception propagates and no `add`/`commit` reaches the storage
collaborator; both `add` and `commit` are issued exactly when both
validations pass. -/
theorem c2_save_validates_before_persisting :
    (∀ (e : Event) (er : PyError),
      Event.validate_age_range e = Except.error er →
      Event.save e = (some er, [])) ∧
    (∀ (e : Event) (er : PyError),
      Event.validate_age_range e = Except.ok () →
      Event.validate_people_range e = Except.error er →
      Event.save e = (some er, [])) ∧
    (∀ e : Event,
      Event.save e = (Option.none, [DbAction.add, DbAction.commit]) ↔
      Event.validate_age_range e = Except.ok () ∧
      Event.validate_people_range e = Except.ok ()) ∧
    (∀ e : Event, (Event.save e).1.isSome = true → (Event.save e).2 = []) ∧
    (Event.save
      { Event.new with min_people := some 5, max_people := some 2 }).2
      = [] := by
  refine ⟨?_, ?_, ?_, ?_, rfl⟩
  · intro e er hage
    rw [Event.save, hage]
  · intro e er hage hppl
    rw [Event.save, hage, hppl]
  · intro e
    constructor
    · intro hsave
      cases ha : Event.validate_age_range e with
      | error er =>
        rw [Event.save, ha] at hsave
        exact absurd hsave (by simp)
      | ok u =>
        cases u
        cases hp : Event.validate_people_range e with
        | error er =>
          rw [Event.save, ha, hp] at hsave
          exact absurd hsave (by simp)
        | ok u2 =>
          cases u2
          exact ⟨rfl, rfl⟩
    · rintro ⟨ha, hp⟩
      rw [Event.save, ha, hp]
  · intro e hsome
    cases ha : Event.validate_age_range e with
    | error er => rw [Event.save, ha]
    | ok u =>
      cases u
      cases hp : Event.validate_people_range e with
      | error er => rw [Event.save, ha, hp]
      | ok u2 =>
        cases u2
        rw [Event.save, ha, hp] at hsome
        exact absurd hsome (by simp)

/-- Witness for C2 at the spec's concrete example `min_people=5,
max_people=2`. -/
theorem c2_witness :
    Event.save { Event.new with min_people := some 5, max_people := some 2 } =
      (some (PyError.valueError
        "min_people must be less than or equal to max_people"), []) :=
  c2_save_validates_before_persisting.2.1
    { Event.new with min_people := some 5, max_people := some 2 }
    (PyError.valueError "min_people must be less than or equal to max_people")
    rfl rfl

/-- The claim's reading of the regex class `\w`, restricted to ASCII
`[A-Za-z0-9_]` ("ASCII word characters").  The source's `re.match` uses the
Unicode class instead. -/
def asciiWordChar (c : Char) : Bool :=
  (decide ('a' ≤ c) && decide (c ≤ 'z')) ||
  (decide ('A' ≤ c) && decide (c ≤ 'Z')) ||
  (decide ('0' ≤ c) && decide (c ≤ '9')) || c == '_'

/-- The claim's ASCII reading of `[\w\.-]`. -/
def asciiLocalChar (c : Char) : Bool :=
  asciiWordChar c || c == '.' || c == '-'

/-- Anchored matching of `[\w\.-]+@[\w\.-]+\.\w+` under the claim's ASCII
reading of `\w`. -/
def AsciiCoreEmail (cs : List Char) : Prop :=
  ∃ a b t, cs = a ++ '@' :: (b ++ '.' :: t) ∧
    (a ≠ [] ∧ ∀ c ∈ a, asciiLocalChar c = true) ∧
    (b ≠ [] ∧ ∀ c ∈ b, asciiLocalChar c = true) ∧
    (t ≠ [] ∧ ∀ c ∈ t, asciiWordChar c = true)

/-- The claim's reading of the whole pattern with `\w` taken as ASCII word
characters (with Python's `$`, which also matches just before one final
newline). -/
def AsciiEmailPattern (s : String) : Prop :=
  AsciiCoreEmail s.data ∨ ∃ t, s.data = t ++ ['\n'] ∧ AsciiCoreEmail t

/-- Counterexample to C3 as stated: Python 3's `re` interprets `\w` over all
of Unicode, so the source's `validate_email` accepts `"ü@b.c"`, which does
not match the claim's "ASCII word characters" reading of the pattern. -/
theorem c3_counterexample :
    User.validate_email "ü@b.c" = true ∧ ¬ AsciiEmailPattern "ü@b.c" := by
  refine ⟨by decide, ?_⟩
  have hdata : ("ü@b.c").data = ['ü', '@', 'b', '.', 'c'] := rfl
  rintro (⟨a, b, t, heq, ⟨hane, hal⟩, _, _⟩ | ⟨t0, ht0, _⟩)
  · rw [hdata] at heq
    cases a with
    | nil => simp at heq
    | cons x a' =>
      simp only [List.cons_append, List.cons.injEq] at heq
      obtain ⟨rfl, _⟩ := heq
      exact absurd (hal _ (List.mem_cons_self _ _)) (by decide)
  · have hlast := congrArg List.getLast? ht0
    rw [List.getLast?_concat] at hlast
    rw [hdata] at hlast
    exact absurd hlast (by decide)

/-- Claim C3, amended: `validate_email s` is true exactly when `s` matches
`^[\w\.-]+@[\w\.-]+\.\w+$` under the source's `re` semantics: `\w` is
Python's Unicode word-character class (not only ASCII), and `$` also matches
just before one final newline.  In particular the spec's two examples hold,
and any string without an `@` or without a `.` is rejected. -/
theorem c3_validate_email_pattern :
    (∀ s : String, User.validate_email s = true ↔ EmailPattern s) ∧
    User.validate_email "a.b@c.org" = true ∧
    User.validate_email "not-an-email" = false ∧
    (∀ s : String, '@' ∉ s.data → User.validate_email s = false) ∧
    (∀ s : String, '.' ∉ s.data → User.validate_email s = false) := by
  refine ⟨fun s => validate_email_iff, by decide, by decide, ?_, ?_⟩
  · intro s hat
    cases hb : User.validate_email s with
    | false => rfl
    | true =>
      exfalso
      rcases validate_email_iff.mp hb with hcore | ⟨t, ht, hcore⟩
      · exact hat hcore.mem_at
      · refine hat ?_
        rw [ht]
        exact List.mem_append.mpr (Or.inl hcore.mem_at)
  · intro s hdot
    cases hb : User.validate_email s with
    | false => rfl
    | true =>
      exfalso
      rcases validate_email_iff.mp hb with hcore | ⟨t, ht, hcore⟩
      · exact hdot hcore.mem_dot
      · refine hdot ?_
        rw [ht]
        exact List.mem_append.mpr (Or.inl hcore.mem_dot)

/-- Witness for C3 at a concrete `@`-free string. -/
theorem c3_witness : User.validate_email "nodotoratsign" = false :=
  c3_validate_email_pattern.2.2.2.1 "nodotoratsign" (by decide)

theorem validate_age_range_some {e : Event} {mn mx : Int}
    (hmn : e.min_age = some mn) (hmx : e.max_age = some mx) :
    Event.validate_age_range e =
      if mn > mx then
        Except.error (PyError.valueError
          "min_age must be less than or equal to max_age")
      else Except.ok () := by
  rw [Event.validate_age_range, hmn, hmx]

theorem validate_age_range_none_left {e : Event}
    (hmn : e.min_age = Option.none) :
    Event.validate_age_range e = Except.ok () := by
  rw [Event.validate_age_range, hmn]

theorem validate_age_range_none_right {e : Event} {mn : Int}
    (hmn : e.min_age = some mn) (hmx : e.max_age = Option.none) :
    Event.validate_age_range e = Except.ok () := by
  rw [Event.validate_age_range, hmn, hmx]

theorem validate_people_range_some {e : Event} {mn mx : Int}
    (hmn : e.min_people = some mn) (hmx : e.max_people = some mx) :
    Event.validate_people_range e =
      if mn > mx then
        Except.error (PyError.valueError
          "min_people must be less than or equal to max_people")
      else Except.ok () := by
  rw [Event.validate_people_range, hmn, hmx]

theorem validate_people_range_none_left {e : Event}
    (hmn : e.min_people = Option.none) :
    Event.validate_people_range e = Except.ok () := by
  rw [Event.validate_people_range, hmn]

theorem validate_people_range_none_right {e : Event} {mn : Int}
    (hmn : e.min_people = some mn) (hmx : e.max_people = Option.none) :
    Event.validate_people_range e = Except.ok () := by
  rw [Event.validate_people_range, hmn, hmx]

/-- Claim C6: each range validator raises `RangeViolation` (`ValueError`)
exactly when both of its bounds are present and inverted, and is a no-op
otherwise (including when either bound is absent). -/
theorem c6_range_validators :
    (∀ e : Event,
      (∃ er, Event.validate_age_range e = Except.error er) ↔
      ∃ mn mx, e.min_age = some mn ∧ e.max_age = some mx ∧ mx < mn) ∧
    (∀ e : Event,
      (∃ er, Event.validate_people_range e = Except.error er) ↔
      ∃ mn mx, e.min_people = some mn ∧ e.max_people = some mx ∧ mx < mn) ∧
    (∀ e : Event,
      (¬ ∃ mn mx, e.min_age = some mn ∧ e.max_age = some mx ∧ mx < mn) →
      Event.validate_age_range e = Except.ok ()) ∧
    (∀ e : Event,
      (¬ ∃ mn mx, e.min_people = some mn ∧ e.max_people = some mx ∧ mx < mn) →
      Event.validate_people_range e = Except.ok ()) := by
  have age : ∀ e : Event,
      (∃ er, Event.validate_age_range e = Except.error er) ↔
      ∃ mn mx, e.min_age = some mn ∧ e.max_age = some mx ∧ mx < mn := by
    intro e
    cases hmn : e.min_age with
    | none => rw [validate_age_range_none_left hmn]; simp
    | some mn =>
      cases hmx : e.max_age with
      | none => rw [validate_age_range_none_right hmn hmx]; simp
      | some mx =>
        rw [validate_age_range_some hmn hmx]
        by_cases hlt : mn > mx
        · rw [if_pos hlt]
          constructor
          · intro _
            exact ⟨mn, mx, rfl, rfl, hlt⟩
          · intro _
            exact ⟨_, rfl⟩
        · rw [if_neg hlt]
          constructor
          · rintro ⟨er, her⟩
            exact absurd her (by simp)
          · rintro ⟨mn', mx', h1, h2, hlt'⟩
            obtain rfl := Option.some.inj h1
            obtain rfl := Option.some.inj h2
            exact absurd hlt' hlt
  have ppl : ∀ e : Event,
      (∃ er, Event.validate_people_range e = Except.error er) ↔
      ∃ mn mx, e.min_people = some mn ∧ e.max_people = some mx ∧ mx < mn := by
    intro e
    cases hmn : e.min_people with
    | none => rw [validate_people_range_none_left hmn]; simp
    | some mn =>
      cases hmx : e.max_people with
      | none => rw [validate_people_range_none_right hmn hmx]; simp
      | some mx =>
        rw [validate_people_range_some hmn hmx]
        by_cases hlt : mn > mx
        · rw [if_pos hlt]
          constructor
          · intro _
            exact ⟨mn, mx, rfl, rfl, hlt⟩
          · intro _
            exact ⟨_, rfl⟩
        · rw [if_neg hlt]
          constructor
          · rintro ⟨er, her⟩
            exact absurd her (by simp)
          · rintro ⟨mn', mx', h1, h2, hlt'⟩
            obtain rfl := Option.some.inj h1
            obtain rfl := Option.some.inj h2
            exact absurd hlt' hlt
  refine ⟨age, ppl, ?_, ?_⟩
  · intro e hnot
    cases hres : Event.validate_age_range e with
    | error er => exact absurd ((age e).mp ⟨er, hres⟩) hnot
    | ok u => cases u; rfl
  · intro e hnot
    cases hres : Event.validate_people_range e with
    | error er => exact absurd ((ppl e).mp ⟨er, hres⟩) hnot
    | ok u => cases u; rfl

/-- Witness for C6 at the spec's concrete examples: inverted bounds raise,
an absent bound is a no-op. -/
theorem c6_witness :
    (∃ er, Event.validate_age_range
      { Event.new with min_age := some 18, max_age := some 10 } =
        Except.error er) ∧
    Event.validate_age_range
      { Event.new with min_age := some 10, max_age := some 18 } =
        Except.ok () ∧
    Event.validate_age_range { Event.new with max_age := some 10 } =
      Except.ok () :=
  ⟨(c6_range_validators.1 _).mpr ⟨18, 10, rfl, rfl, by omega⟩,
   c6_range_validators.2.2.1 _
     (by rintro ⟨mn, mx, hmn, hmx, hlt⟩; simp [Event.new] at hmn hmx; omega),
   c6_range_validators.2.2.1 _
     (by rintro ⟨mn, mx, hmn, hmx⟩; simp [Event.new] at hmn)⟩

/-- Counterexample to C5 as stated: `strptime('%d-%m-%Y')` also accepts a
one-digit day and month (its `%d` regex is
`3[0-1]|[1-2]\d|0[1-9]|[1-9]| [1-9]`, its `%m` regex `1[0-2]|0[1-9]|[1-9]`),
so `validate_date "1-1-2024"` is `True` although `"1-1-2024"` has no
decomposition with a two-digit day and a two-digit month. -/
theorem c5_counterexample :
    Event.validate_date "1-1-2024" = true ∧
    ¬ SpecTwoDigitDMY "1-1-2024" := by
  refine ⟨by decide, ?_⟩
  rintro ⟨dd, mm, yy, heq, hdd, _, hmm, _, hyy, _⟩
  have hlen : ("1-1-2024".data).length = 8 := rfl
  rw [heq] at hlen
  simp only [List.length_append, List.length_cons, hdd, hmm, hyy] at hlen
  omega

/-- Claim C5, amended: `validate_date text` is true iff `text` is
day`-`month`-`year where the day token is one of the `%d` regex's branches
(one- or two-character, valued in `1..31`; the second digit of a `10..29`
day and nothing else may be a non-ASCII Unicode decimal digit; a
space-padded single digit is also accepted), the month token is a one- or
two-ASCII-digit value in `1..12`, the year token is exactly four Unicode
decimal digits valued `0001..9999`, and the day does not exceed the length
of that month in that year (Gregorian leap rule); `set_date` raises
`InvalidFormat` (`ValueError`) exactly when `validate_date` is false and
otherwise stores the parsed date; the spec's two examples behave as
stated. -/
theorem c5_date_validation_amended :
    (∀ s : String, Event.validate_date s = true ↔ DMYDate s) ∧
    (∀ (dd : List Char) (d : Nat), DayToken dd d →
      1 ≤ d ∧ d ≤ 31 ∧ (dd.length = 1 ∨ dd.length = 2)) ∧
    (∀ (mm : List Char) (m : Nat), MonthToken mm m →
      1 ≤ m ∧ m ≤ 12 ∧ (mm.length = 1 ∨ mm.length = 2)) ∧
    (∀ (yy : List Char) (y : Nat), YearToken yy y →
      y ≤ 9999 ∧ yy.length = 4) ∧
    (∀ (e : Event) (s : String),
      (Event.set_date e s).1 = Option.none ↔ Event.validate_date s = true) ∧
    (∀ (e : Event) (s : String), Event.validate_date s = false →
      Event.set_date e s =
        (some (PyError.valueError
          "Invalid date format. Date should be in the format 'DD-MM-YYYY'"),
         e)) ∧
    (∀ (e : Event) (s : String) (d m y : Nat),
      strptime_dmY s = some (d, m, y) →
      Event.set_date e s =
        (Option.none, { e with date := some (PyVal.datetime d m y) })) ∧
    (Event.set_date Event.new "31-12-2024").1 = Option.none ∧
    (Event.set_date Event.new "2024-12-31").1 =
      some (PyError.valueError
        "Invalid date format. Date should be in the format 'DD-MM-YYYY'") ∧
    Event.validate_date "1٣-12-٢٠٢٤" = true ∧
    Event.validate_date " 1-2-2024" = true ∧
    Event.validate_date "13-1٢-2024" = false ∧
    Event.validate_date "31-04-2024" = false := by
  refine ⟨fun s => validate_date_iff, fun dd d h => DayToken_bounds h,
    fun mm m h => MonthToken_bounds h, fun yy y h => YearToken_bounds h,
    ?_, ?_, ?_, by decide, by decide, by decide, by decide, by decide,
    by decide⟩
  · intro e s
    rw [Event.validate_date, Event.set_date]
    cases hres : strptime_dmY s with
    | none => simp
    | some p =>
      obtain ⟨d, m, y⟩ := p
      simp
  · intro e s hval
    rw [Event.validate_date] at hval
    rw [Event.set_date]
    cases hres : strptime_dmY s with
    | none => rfl
    | some p =>
      rw [hres] at hval
      exact absurd hval (by simp)
  · intro e s d m y hres
    rw [Event.set_date, hres]

/-- Witness for C5 (amended) at the spec's failing example. -/
theorem c5_witness :
    Event.set_date Event.new "2024-12-31" =
      (some (PyError.valueError
        "Invalid date format. Date should be in the format 'DD-MM-YYYY'"),
       Event.new) :=
  c5_date_validation_amended.2.2.2.2.2.1 Event.new "2024-12-31" (by decide)

/-- Counterexample to C8 as stated: an `Event` with `min_age = -1` (and no
other bound set) passes both in-core validations, so `save` issues `add` and
`commit` although `min_age < 0`.  The non-negativity `CHECK` constraints live
in `__table_args__` and are enforced only by the external storage
collaborator. -/
theorem c8_counterexample :
    Event.save { Event.new with min_age := some (-1) } =
      (Option.none, [DbAction.add, DbAction.commit]) ∧
    ({ Event.new with min_age := some (-1) } : Event).min_age = some (-1) ∧
    ((-1 : Int) < 0) := by
  exact ⟨rfl, rfl, by decide⟩

/-- Claim C8, amended: `save` succeeding in-core is equivalent to the two
ordering validations alone — it does not enforce non-negativity.
Non-negativity of present `min_age`/`min_people` is exactly what the declared
`__table_args__` `CHECK` constraints give: every row satisfying them has
non-negative minima when present. -/
theorem c8_amended_nonnegativity :
    (∀ e : Event, (Event.save e).1 = Option.none ↔
      Event.validate_age_range e = Except.ok () ∧
      Event.validate_people_range e = Except.ok ()) ∧
    (∀ e : Event, (∀ cc ∈ Event.table_args, cc.holds_for e = true) →
      (∀ v, e.min_age = some v → 0 ≤ v) ∧
      (∀ v, e.min_people = some v → 0 ≤ v)) := by
  constructor
  · intro e
    constructor
    · intro hsave
      cases ha : Event.validate_age_range e with
      | error er =>
        rw [Event.save, ha] at hsave
        exact absurd hsave (by simp)
      | ok u =>
        cases u
        cases hp : Event.validate_people_range e with
        | error er =>
          rw [Event.save, ha, hp] at hsave
          exact absurd hsave (by simp)
        | ok u2 =>
          cases u2
          exact ⟨rfl, rfl⟩
    · rintro ⟨ha, hp⟩
      rw [Event.save, ha, hp]
  · intro e hcc
    simp only [Event.table_args, List.mem_cons, List.not_mem_nil, or_false,
      forall_eq_or_imp, forall_eq] at hcc
    obtain ⟨h1, _, h3, _⟩ := hcc
    constructor
    · intro v hv
      have h1' : (match e.min_age with
          | Option.none => true
          | some w => decide (0 ≤ w)) = true := h1
      rw [hv] at h1'
      simpa using h1'
    · intro v hv
      have h3' : (match e.min_people with
          | Option.none => true
          | some w => decide (0 ≤ w)) = true := h3
      rw [hv] at h3'
      simpa using h3'

/-- Witness for C8 (amended): a concrete event satisfying all declared
checks has a non-negative present minimum, and a concrete save succeeds. -/
theorem c8_witness :
    (0 : Int) ≤ 3 ∧
    (Event.save { Event.new with min_age := some 3 }).1 = Option.none :=
  ⟨(c8_amended_nonnegativity.2 { Event.new with min_age := some 3 }
      (by decide)).1 3 rfl,
   (c8_amended_nonnegativity.1 { Event.new with min_age := some 3 }).mpr
     ⟨rfl, rfl⟩⟩

/-- Claim C9: each `serialize` returns exactly its enumerated key set, in
source order, with no extra keys — in particular neither `password` nor
`salt` ever appears in `User.serialize` — and serialization is pure, so
repeated calls on unchanged state are equal. -/
theorem c9_serialize_exact_fields :
    (∀ u : User, (User.serialize u).map Prod.fst =
      ["id", "username", "email", "first_name", "last_name",
       "followed_users", "users_following_me"]) ∧
    (∀ u : User, "password" ∉ (User.serialize u).map Prod.fst) ∧
    (∀ u : User, "salt" ∉ (User.serialize u).map Prod.fst) ∧
    (∀ e : Event, (Event.serialize e).map Prod.fst =
      ["id", "user_owner", "name", "type", "date", "place", "duration",
       "description", "language", "gender", "price_type", "price", "min_age",
       "max_age", "min_people", "max_people", "lgtbi", "pet_friendly",
       "kid_friendly"]) ∧
    (∀ r : Signedup_events, (Signedup_events.serialize r).map Prod.fst =
      ["id", "user_id", "event_id"]) ∧
    (∀ u : User, User.serialize u = User.serialize u) ∧
    (∀ e : Event, Event.serialize e = Event.serialize e) ∧
    (∀ r : Signedup_events,
      Signedup_events.serialize r = Signedup_events.serialize r) := by
  refine ⟨fun u => rfl, ?_, ?_, fun e => rfl, fun r => rfl, fun u => rfl,
    fun e => rfl, fun r => rfl⟩
  · intro u hmem
    have hkeys : (User.serialize u).map Prod.fst =
        ["id", "username", "email", "first_name", "last_name",
         "followed_users", "users_following_me"] := rfl
    rw [hkeys] at hmem
    exact absurd hmem (by decide)
  · intro u hmem
    have hkeys : (User.serialize u).map Prod.fst =
        ["id", "username", "email", "first_name", "last_name",
         "followed_users", "users_following_me"] := rfl
    rw [hkeys] at hmem
    exact absurd hmem (by decide)

/-- Witness for C9 at concrete fresh entities. -/
theorem c9_witness :
    "password" ∉ (User.serialize User.new).map Prod.fst ∧
    "salt" ∉ (User.serialize User.new).map Prod.fst :=
  ⟨c9_serialize_exact_fields.2.1 User.new,
   c9_serialize_exact_fields.2.2.1 User.new⟩
